import Mathlib

/-!
Verification development for the SucuriAPI command-line utility.

The repository contains five historical variants of the same Go program:
`main.go` holds two programs (named `V1` and `V2` below), `part_000` holds
one (`P0`), and `part_001` holds two (the second, final one is `P1b`; the
first is an early sketch that no claim's cited lines require).

Go machine integers are embedded as `Nat` with explicit `% 2^32` where a
`uint32` can wrap.  Fallible or effectful Go code (`log.Fatalln`,
`os.Exit`, slice-bounds panics, and the potentially diverging expansion
loop) is embedded with the `ExecResult` type below.  Go's `for` loop in
`getUsableIPs` is embedded with explicit fuel, since for some inputs that
loop genuinely never exits.
-/

set_option maxRecDepth 4000

namespace SucuriAPI

/-- Result of running a fragment of the program.
`ok` is normal completion; `fatal` models an early process exit before
the submission phase (`log.Fatalln`, `os.Exit(2)`, and the `os.Exit(0)`
after printing the settings help in `part_001`'s second program);
`panicked` models a Go runtime panic (slice out of range); `diverge`
models running out of fuel, i.e. the fragment did not finish within the
given number of loop iterations. -/
inductive ExecResult (α : Type) where
  | ok : α → ExecResult α
  | fatal : ExecResult α
  | panicked : ExecResult α
  | diverge : ExecResult α
deriving DecidableEq, Repr

/-- Sequencing of embedded program fragments: errors and divergence
propagate, a normal value flows into the continuation. -/
def ExecResult.bind {α β : Type} : ExecResult α → (α → ExecResult β) → ExecResult β
  | .ok a, f => f a
  | .fatal, _ => .fatal
  | .panicked, _ => .panicked
  | .diverge, _ => .diverge

/-- The state of a file the program may read: the file is absent, present
but not valid JSON for the expected shape, or present and parsed. -/
inductive FileState (α : Type) where
  | absent : FileState α
  | malformed : FileState α
  | parsed : α → FileState α
deriving DecidableEq, Repr

/-- The `SucuriAPI.Sucuri` client struct of the external client library:
the API URL and the two credentials loaded by `main`. -/
structure Sucuri where
  Url : String
  ApiKey : String
  ApiSecret : String
deriving DecidableEq, Repr

/-- A request value built by the external client library.  The library is
an external module (not part of this repository), so a request is embedded
as the constructor applied by the client method together with its
arguments, including the client the method was called on. -/
inductive SucuriRequest where
  | whitelistIP : Sucuri → String → Bool → SucuriRequest
  | blacklistIP : Sucuri → String → Bool → SucuriRequest
  | whitelistPath : Sucuri → String → String → SucuriRequest
  | blacklistPath : Sucuri → String → String → SucuriRequest
  | updateSetting : Sucuri → String → String → SucuriRequest
deriving DecidableEq, Repr

/-- Method `sucuri.WhitelistIP(ip, delete)` of the client library. -/
def Sucuri.WhitelistIP (s : Sucuri) (ip : String) (del : Bool) : SucuriRequest :=
  .whitelistIP s ip del

/-- Method `sucuri.BlacklistIP(ip, delete)` of the client library. -/
def Sucuri.BlacklistIP (s : Sucuri) (ip : String) (del : Bool) : SucuriRequest :=
  .blacklistIP s ip del

/-- Method `sucuri.WhitelistPath(path, pattern)` of the client library. -/
def Sucuri.WhitelistPath (s : Sucuri) (path pattern : String) : SucuriRequest :=
  .whitelistPath s path pattern

/-- Method `sucuri.BlacklistPath(path, pattern)` of the client library. -/
def Sucuri.BlacklistPath (s : Sucuri) (path pattern : String) : SucuriRequest :=
  .blacklistPath s path pattern

/-- Method `sucuri.UpdateSetting(key, value)` of the client library. -/
def Sucuri.UpdateSetting (s : Sucuri) (key value : String) : SucuriRequest :=
  .updateSetting s key value

/-- The `config.json` shape: `{"apiKey": ..., "sites": {...}}`.  The Go
`map[string]string` is embedded as an association list; Go map iteration
order is unspecified and no claim depends on it. -/
structure ConfigFile where
  apiKey : String
  sites : List (String × String)
deriving DecidableEq, Repr

/-- Indexing a Go `map[string]string` by a key: the zero value `""` is
returned when the key is missing (as `configFile.Sites[*site]` does on a
missing key or a nil map). -/
def mapIndex (m : List (String × String)) (k : String) : String :=
  match m.find? (fun e => e.1 = k) with
  | some e => e.2
  | none => ""

/-! ### Strings: `strings.Split(s, ",")` -/

/-- Accumulator-passing core of comma splitting over the characters of the
string. -/
def splitCommaAux : List Char → List Char → List String
  | [], acc => [String.mk acc.reverse]
  | c :: cs, acc =>
    if c = ',' then String.mk acc.reverse :: splitCommaAux cs []
    else splitCommaAux cs (c :: acc)

/-- Go `strings.Split(s, ",")`: split at every comma; `n` commas give
`n+1` fields, and the empty string gives one empty field. -/
def splitComma (s : String) : List String :=
  splitCommaAux s.data []

/-! ### `net.ParseCIDR` for IPv4, `net.CIDRMask`, and `net.IP.String()`

The `net` package is the Go standard library, external to this repository;
the definitions below embed its documented behaviour on IPv4 CIDR
notation `"a.b.c.d/p"`: four decimal octets `0..255` without leading
zeros, a `/`, and a decimal prefix length `0..32` without leading zeros.
-/

/-- Split a character list at the first `/`, as `net.ParseCIDR` splits its
argument into the address part and the mask part. -/
def splitFirstSlash : List Char → Option (List Char × List Char)
  | [] => none
  | c :: cs =>
    if c = '/' then some ([], cs)
    else
      match splitFirstSlash cs with
      | none => none
      | some (a, b) => some (c :: a, b)

/-- Split a character list at every occurrence of the separator. -/
def splitOnChar (sep : Char) : List Char → List (List Char)
  | [] => [[]]
  | c :: cs =>
    let r := splitOnChar sep cs
    if c = sep then [] :: r
    else
      match r with
      | [] => [[c]]
      | g :: gs => (c :: g) :: gs

/-- Parse a nonempty all-digit field with no leading zero into its decimal
value. -/
def parseNum (cs : List Char) : Option Nat :=
  if cs = [] then none
  else if !(cs.all Char.isDigit) then none
  else if cs.length > 1 && cs.head? = some '0' then none
  else some (cs.foldl (fun acc c => acc * 10 + (c.toNat - 48)) 0)

/-- Parse one dotted-quad octet: a decimal field with value at most 255. -/
def parseOctet (cs : List Char) : Option Nat :=
  (parseNum cs).bind fun n => if n ≤ 255 then some n else none

/-- Parse a dotted-quad IPv4 address into its 32-bit big-endian value. -/
def parseIPv4 (cs : List Char) : Option Nat :=
  match splitOnChar '.' cs with
  | [a, b, c, d] =>
    (parseOctet a).bind fun x =>
    (parseOctet b).bind fun y =>
    (parseOctet c).bind fun z =>
    (parseOctet d).bind fun w =>
    some (x * 2 ^ 24 + y * 2 ^ 16 + z * 2 ^ 8 + w)
  | _ => none

/-- Parse the prefix-length field of a CIDR string: decimal, at most 32. -/
def parseMaskLen (cs : List Char) : Option Nat :=
  (parseNum cs).bind fun n => if n ≤ 32 then some n else none

/-- Function `net.ParseCIDR` restricted to IPv4: returns the 32-bit value of the
written address together with the prefix length, or `none` on a malformed
string.  (`ParseCIDR` itself already masks the address; the embedding
keeps the raw value here and applies the mask in `getUsableIPs`, which is
where the masked `ipv4Net.IP` is consumed.) -/
def parseCIDR (s : String) : Option (Nat × Nat) :=
  match splitFirstSlash s.data with
  | none => none
  | some (a, m) =>
    (parseIPv4 a).bind fun v => (parseMaskLen m).bind fun p => some (v, p)

/-- Mask `net.CIDRMask(p, 32)` as a big-endian `uint32` value: `p` one bits
followed by `32 - p` zero bits. -/
def cidrMask (p : Nat) : Nat := 2 ^ 32 - 2 ^ (32 - p)

/-- Rendering `ip.String()` for a 4-byte IP holding the big-endian value `n`:
the four bytes printed in decimal and joined with dots, exactly as
`binary.BigEndian.PutUint32` followed by `net.IP.String()` produces. -/
def ipString (n : Nat) : String :=
  Nat.repr (n >>> 24 % 256) ++ "." ++ Nat.repr (n >>> 16 % 256) ++ "." ++
    Nat.repr (n >>> 8 % 256) ++ "." ++ Nat.repr (n % 256)

/-- The address-enumeration loop of `getUsableIPs`:
`for i := start; i <= finish; i++ { ...; ips = append(ips, ip.String()) }`
with `i` a `uint32`, so the increment wraps modulo `2^32`.  The loop is
embedded with fuel: `none` means the loop did not exit within `fuel`
iterations. -/
def loopIPs : Nat → Nat → Nat → Option (List String)
  | 0, _, _ => none
  | fuel + 1, i, finish =>
    if i ≤ finish then
      match loopIPs fuel ((i + 1) % 2 ^ 32) finish with
      | none => none
      | some rest => some (ipString i :: rest)
    else some []

/-- Function `getUsableIPs(subnet)` of `main.go` (second program) and `part_001`
(second program); the two copies differ only by a `fmt.Println` of
`finish`.  A parse failure hits `log.Fatalln`; the final
`ips = ips[1 : len(ips)-1]` panics when the slice bounds are invalid,
i.e. when `len(ips) < 2`. -/
def getUsableIPs (fuel : Nat) (subnet : String) : ExecResult (List String) :=
  match parseCIDR subnet with
  | none => .fatal
  | some (v, p) =>
    let mask := cidrMask p
    let start := v &&& mask
    let finish := start ||| (mask ^^^ 0xffffffff)
    match loopIPs fuel start finish with
    | none => .diverge
    | some ips =>
      if 2 ≤ ips.length then .ok ((ips.drop 1).take (ips.length - 2))
      else .panicked

/-! ### Characterizing the expansion loop -/

/-- Once the counter exceeds `finish`, the loop exits at once. -/
theorem loopIPs_stop (fuel i finish : Nat) (h : finish < i) (hfuel : 1 ≤ fuel) :
    loopIPs fuel i finish = some [] := by
  match fuel with
  | f + 1 =>
    unfold loopIPs
    rw [if_neg (by omega)]

/-- With enough fuel, and a `finish` strictly below the largest `uint32`,
the loop returns the addresses `i, i+1, ..., finish` rendered by
`ipString`. -/
theorem loopIPs_term (fuel : Nat) :
    ∀ i finish : Nat, i ≤ finish → finish < 2 ^ 32 - 1 → finish + 2 - i ≤ fuel →
      loopIPs fuel i finish = some ((List.range' i (finish + 1 - i)).map ipString) := by
  induction fuel with
  | zero => intro i finish h1 h2 h3; omega
  | succ f ih =>
    intro i finish h1 h2 h3
    unfold loopIPs
    rw [if_pos h1]
    have hmod : (i + 1) % 2 ^ 32 = i + 1 := Nat.mod_eq_of_lt (by omega)
    rw [hmod]
    by_cases hlt : i < finish
    · rw [ih (i + 1) finish (by omega) h2 (by omega)]
      have hn : finish + 1 - i = (finish - i) + 1 := by omega
      rw [hn, List.range'_succ]
      have hn2 : finish + 1 - (i + 1) = finish - i := by omega
      rw [hn2, List.map_cons]
    · have hie : i = finish := by omega
      subst hie
      rw [loopIPs_stop f (i + 1) i (by omega) (by omega)]
      have hn : i + 1 - i = 1 := by omega
      rw [hn]
      rfl

/-- When `finish` is the largest `uint32` value, the loop guard
`i <= finish` can never fail, so the loop never exits: the wrap-around of
the `uint32` counter makes the loop infinite. -/
theorem loopIPs_diverge (fuel : Nat) :
    ∀ i : Nat, i < 2 ^ 32 → loopIPs fuel i (2 ^ 32 - 1) = none := by
  induction fuel with
  | zero => intro i _; rfl
  | succ f ih =>
    intro i hi
    have hg : i ≤ 4294967295 := by omega
    have hrec : loopIPs f ((i + 1) % 4294967296) 4294967295 = none :=
      ih ((i + 1) % 2 ^ 32) (Nat.mod_lt _ (by norm_num))
    simp [loopIPs, hg, hrec]

/-- If the loop does return a list, that list has one entry per address
from `i` to `finish`. -/
theorem loopIPs_some_length (fuel : Nat) :
    ∀ i finish l, i ≤ finish → finish < 2 ^ 32 - 1 →
      loopIPs fuel i finish = some l → l.length = finish + 1 - i := by
  induction fuel with
  | zero => intro i finish l _ _ h; exact absurd h (by simp [loopIPs])
  | succ f ih =>
    intro i finish l h1 h2 hl
    unfold loopIPs at hl
    rw [if_pos h1] at hl
    have hmod : (i + 1) % 2 ^ 32 = i + 1 := Nat.mod_eq_of_lt (by omega)
    rw [hmod] at hl
    by_cases hlt : i < finish
    · match hrest : loopIPs f (i + 1) finish with
      | none => rw [hrest] at hl; exact absurd hl (by simp)
      | some rest =>
        rw [hrest] at hl
        have := ih (i + 1) finish rest (by omega) h2 hrest
        simp only [Option.some.injEq] at hl
        subst hl
        simp [this]
        omega
    · have hie : i = finish := by omega
      subst hie
      cases f with
      | zero => exact absurd hl (by simp [loopIPs])
      | succ f2 =>
        rw [loopIPs_stop (f2 + 1) (i + 1) i (by omega) (by omega)] at hl
        simp only [Option.some.injEq] at hl
        subst hl
        simp

/-! ### The network mask, network address and broadcast address -/

/-- Inverting the CIDR mask inside a `uint32` yields the low
`32 - p` bits: the host part of the address space. -/
theorem cidrMask_xor : ∀ p : Nat, p ≤ 32 → cidrMask p ^^^ 0xffffffff = 2 ^ (32 - p) - 1 := by
  decide

/-- The CIDR mask is a multiple of `2 ^ (32 - p)`. -/
theorem cidrMask_eq_mul (p : Nat) (hp : p ≤ 32) :
    cidrMask p = 2 ^ (32 - p) * (2 ^ p - 1) := by
  unfold cidrMask
  have h : 2 ^ 32 = 2 ^ (32 - p) * 2 ^ p := by
    rw [← Nat.pow_add]
    congr 1
    omega
  rw [Nat.mul_sub, h, Nat.mul_one]

/-- The network address (the address masked with the CIDR mask) has all
its host bits clear: it is a multiple of the subnet size. -/
theorem dvd_network (v p : Nat) (hp : p ≤ 32) :
    2 ^ (32 - p) ∣ (v &&& cidrMask p) := by
  apply Nat.dvd_of_mod_eq_zero
  apply Nat.eq_of_testBit_eq
  intro i
  rw [Nat.testBit_mod_two_pow, Nat.testBit_and, Nat.zero_testBit]
  by_cases hi : i < 32 - p
  · rw [cidrMask_eq_mul p hp, Nat.testBit_mul_pow_two]
    have : ¬ (i ≥ 32 - p) := by omega
    simp [this]
  · simp [hi]

/-- The `finish` value the code computes,
`start | (mask ^ 0xffffffff)`, is the broadcast address
`network + 2^(32-p) - 1`. -/
theorem finish_eq_broadcast (v p : Nat) (hp : p ≤ 32) :
    (v &&& cidrMask p) ||| (cidrMask p ^^^ 0xffffffff) =
      (v &&& cidrMask p) + (2 ^ (32 - p) - 1) := by
  rw [cidrMask_xor p hp]
  obtain ⟨q, hq⟩ := dvd_network v p hp
  rw [hq]
  exact (Nat.mul_add_lt_is_or (Nat.sub_lt (Nat.two_pow_pos _) Nat.one_pos) q).symm

/-- The network address is bounded by the mask, hence below `2 ^ 32`. -/
theorem network_le_mask (v p : Nat) : v &&& cidrMask p ≤ cidrMask p :=
  Nat.and_le_right

/-- The broadcast address fits in a `uint32`. -/
theorem broadcast_le (v p : Nat) (hp : p ≤ 32) :
    (v &&& cidrMask p) + (2 ^ (32 - p) - 1) ≤ 2 ^ 32 - 1 := by
  have h1 := network_le_mask v p
  have h2 : cidrMask p = 2 ^ 32 - 2 ^ (32 - p) := rfl
  have h3 : 2 ^ (32 - p) ≤ 2 ^ 32 := Nat.pow_le_pow_right (by omega) (by omega)
  have h4 : 1 ≤ 2 ^ (32 - p) := Nat.one_le_two_pow
  omega

/-! ### Bounds coming out of the CIDR parser -/

/-- A parsed octet is at most 255. -/
theorem parseOctet_le (cs : List Char) (n : Nat) (h : parseOctet cs = some n) : n ≤ 255 := by
  simp only [parseOctet, Option.bind_eq_some] at h
  obtain ⟨m, _, hm⟩ := h
  by_cases h255 : m ≤ 255
  · rw [if_pos h255] at hm
    simp only [Option.some.injEq] at hm
    omega
  · rw [if_neg h255] at hm
    exact absurd hm (by simp)

/-- A parsed IPv4 address value fits in a `uint32`. -/
theorem parseIPv4_lt (cs : List Char) (v : Nat) (h : parseIPv4 cs = some v) : v < 2 ^ 32 := by
  unfold parseIPv4 at h
  match hs : splitOnChar '.' cs with
  | [a, b, c, d] =>
    rw [hs] at h
    simp only [Option.bind_eq_some, Option.some.injEq] at h
    obtain ⟨x, hx, y, hy, z, hz, w, hw, hv⟩ := h
    have := parseOctet_le a x hx
    have := parseOctet_le b y hy
    have := parseOctet_le c z hz
    have := parseOctet_le d w hw
    omega
  | [] => rw [hs] at h; exact absurd h (by simp)
  | [_] => rw [hs] at h; exact absurd h (by simp)
  | [_, _] => rw [hs] at h; exact absurd h (by simp)
  | [_, _, _] => rw [hs] at h; exact absurd h (by simp)
  | _ :: _ :: _ :: _ :: _ :: _ => rw [hs] at h; exact absurd h (by simp)

/-- The values returned by `parseCIDR` are a `uint32` address and a
prefix length of at most 32. -/
theorem parseCIDR_bounds (s : String) (v p : Nat) (h : parseCIDR s = some (v, p)) :
    v < 2 ^ 32 ∧ p ≤ 32 := by
  unfold parseCIDR at h
  match hs : splitFirstSlash s.data with
  | none => rw [hs] at h; exact absurd h (by simp)
  | some (a, m) =>
    rw [hs] at h
    simp only [Option.bind_eq_some, Option.some.injEq, Prod.mk.injEq] at h
    obtain ⟨v0, hv0, p0, hp0, hv, hp⟩ := h
    subst hv; subst hp
    refine ⟨parseIPv4_lt a v0 hv0, ?_⟩
    simp only [parseMaskLen, Option.bind_eq_some] at hp0
    obtain ⟨n, _, hn⟩ := hp0
    by_cases h32 : n ≤ 32
    · rw [if_pos h32] at hn
      simp only [Option.some.injEq] at hn
      omega
    · rw [if_neg h32] at hn
      exact absurd hn (by simp)

/-- Taking a prefix of an arithmetic range shortens the range. -/
theorem take_range_one (m : Nat) :
    ∀ n s : Nat, m ≤ n → (List.range' s n).take m = List.range' s m := by
  induction m with
  | zero => intro n s _; simp
  | succ m2 ih =>
    intro n s hmn
    match n with
    | n2 + 1 =>
      rw [List.range'_succ, List.range'_succ, List.take_succ_cons, ih n2 (s + 1) (by omega)]

/-- Masking with all 32 one bits leaves a `uint32` value unchanged. -/
theorem land_ones32 (v : Nat) (hv : v < 2 ^ 32) : v &&& (2 ^ 32 - 1) = v := by
  apply Nat.eq_of_testBit_eq
  intro i
  rw [Nat.testBit_and, Nat.testBit_two_pow_sub_one]
  by_cases hi : i < 32
  · simp [hi]
  · have h1 : v < 2 ^ i := by
      calc v < 2 ^ 32 := hv
        _ ≤ 2 ^ i := Nat.pow_le_pow_right (by omega) (by omega)
    simp [hi, Nat.testBit_lt_two_pow h1]

/-- Unfolding `getUsableIPs` once the CIDR string has been parsed. -/
theorem getUsableIPs_eq (fuel : Nat) (s : String) (v p : Nat)
    (hs : parseCIDR s = some (v, p)) :
    getUsableIPs fuel s =
      match loopIPs fuel (v &&& cidrMask p)
          ((v &&& cidrMask p) ||| (cidrMask p ^^^ 0xffffffff)) with
      | none => .diverge
      | some ips =>
        if 2 ≤ ips.length then .ok ((ips.drop 1).take (ips.length - 2))
        else .panicked := by
  simp only [getUsableIPs, hs]

/-- For a prefix of at most 31 bits and a broadcast address strictly
below 255.255.255.255, `getUsableIPs` returns the rendered addresses
strictly between the network and broadcast addresses, in ascending
order. -/
theorem getUsableIPs_ok_hosts (fuel : Nat) (s : String) (v p : Nat)
    (hs : parseCIDR s = some (v, p)) (hp : p ≤ 31)
    (hb : (v &&& cidrMask p) + (2 ^ (32 - p) - 1) < 2 ^ 32 - 1)
    (hfuel : 2 ^ (32 - p) + 1 ≤ fuel) :
    getUsableIPs fuel s =
      .ok ((List.range' ((v &&& cidrMask p) + 1) (2 ^ (32 - p) - 2)).map ipString) := by
  have hk : 1 ≤ 32 - p := by omega
  have h2k : 2 ≤ 2 ^ (32 - p) := by
    calc (2 : Nat) = 2 ^ 1 := by norm_num
      _ ≤ 2 ^ (32 - p) := Nat.pow_le_pow_right (by omega) hk
  rw [getUsableIPs_eq fuel s v p hs]
  rw [finish_eq_broadcast v p (by omega)]
  rw [loopIPs_term fuel (v &&& cidrMask p) ((v &&& cidrMask p) + (2 ^ (32 - p) - 1))
    (by omega) hb (by omega)]
  have hcount : (v &&& cidrMask p) + (2 ^ (32 - p) - 1) + 1 - (v &&& cidrMask p) =
      2 ^ (32 - p) := by omega
  rw [hcount]
  dsimp only
  have hlen : ((List.range' (v &&& cidrMask p) (2 ^ (32 - p))).map ipString).length =
      2 ^ (32 - p) := by simp
  rw [hlen]
  rw [if_pos h2k]
  rw [← List.map_drop, ← List.map_take]
  have hsplit : List.range' (v &&& cidrMask p) (2 ^ (32 - p)) =
      (v &&& cidrMask p) :: List.range' ((v &&& cidrMask p) + 1) (2 ^ (32 - p) - 1) := by
    conv =>
      lhs
      rw [show 2 ^ (32 - p) = (2 ^ (32 - p) - 1) + 1 by omega]
    rw [List.range'_succ]
  rw [hsplit, List.drop_succ_cons, List.drop_zero]
  rw [take_range_one (2 ^ (32 - p) - 2) (2 ^ (32 - p) - 1) _ (by omega)]

/-- Whenever the broadcast address is 255.255.255.255, the enumeration
loop never exits, whatever the fuel. -/
theorem getUsableIPs_diverge_max (fuel : Nat) (s : String) (v p : Nat)
    (hs : parseCIDR s = some (v, p)) (hp : p ≤ 32)
    (hb : (v &&& cidrMask p) + (2 ^ (32 - p) - 1) = 2 ^ 32 - 1) :
    getUsableIPs fuel s = .diverge := by
  rw [getUsableIPs_eq fuel s v p hs]
  rw [finish_eq_broadcast v p hp, hb]
  have hstart : v &&& cidrMask p < 2 ^ 32 := by
    have h1 := network_le_mask v p
    have h2 : cidrMask p = 2 ^ 32 - 2 ^ (32 - p) := rfl
    have h3 : 1 ≤ 2 ^ (32 - p) := Nat.one_le_two_pow
    omega
  rw [loopIPs_diverge fuel _ hstart]

/-- A /32 subnet whose single address is not 255.255.255.255 makes the
loop produce a one-element list, on which the slice `ips[1:len(ips)-1]`
has invalid bounds. -/
theorem getUsableIPs_panic_single (fuel : Nat) (s : String) (v : Nat)
    (hs : parseCIDR s = some (v, 32)) (hv1 : v < 2 ^ 32 - 1) (hfuel : 2 ≤ fuel) :
    getUsableIPs fuel s = .panicked := by
  have hv : v < 2 ^ 32 := by omega
  rw [getUsableIPs_eq fuel s v 32 hs]
  have hmask : cidrMask 32 = 2 ^ 32 - 1 := by decide
  have hxor : cidrMask 32 ^^^ 0xffffffff = 0 := by decide
  rw [hxor, hmask, land_ones32 v hv, Nat.or_zero]
  rw [loopIPs_term fuel v v (by omega) hv1 (by omega)]
  have h1 : v + 1 - v = 1 := by omega
  rw [h1]
  simp

/-- For a prefix of at most 31 bits the produced list, when the loop does
exit, has at least two entries, so the final slice never faults; and when
the loop does not exit the slice is never reached. -/
theorem getUsableIPs_no_panic (fuel : Nat) (s : String) (v p : Nat)
    (hs : parseCIDR s = some (v, p)) (hp : p ≤ 31) :
    getUsableIPs fuel s ≠ .panicked := by
  have hk : 1 ≤ 32 - p := by omega
  have h2k : 2 ≤ 2 ^ (32 - p) := by
    calc (2 : Nat) = 2 ^ 1 := by norm_num
      _ ≤ 2 ^ (32 - p) := Nat.pow_le_pow_right (by omega) hk
  have hble := broadcast_le v p (by omega)
  rw [getUsableIPs_eq fuel s v p hs]
  rw [finish_eq_broadcast v p (by omega)]
  by_cases hb : (v &&& cidrMask p) + (2 ^ (32 - p) - 1) = 2 ^ 32 - 1
  · rw [hb]
    have hstart : v &&& cidrMask p < 2 ^ 32 := by
      have h1 := network_le_mask v p
      have h2 : cidrMask p = 2 ^ 32 - 2 ^ (32 - p) := rfl
      omega
    rw [loopIPs_diverge fuel _ hstart]
    simp
  · have hblt : (v &&& cidrMask p) + (2 ^ (32 - p) - 1) < 2 ^ 32 - 1 := by omega
    match hloop : loopIPs fuel (v &&& cidrMask p) ((v &&& cidrMask p) + (2 ^ (32 - p) - 1)) with
    | none => simp
    | some l =>
      have hlen := loopIPs_some_length fuel (v &&& cidrMask p)
        ((v &&& cidrMask p) + (2 ^ (32 - p) - 1)) l (by omega) hblt hloop
      have h2 : 2 ≤ l.length := by omega
      simp only [if_pos h2]
      simp

/-! ### Claim C1 -/

/-- C1 (counterexample): the claim says `getUsableIPs` returns the host
addresses of every valid IPv4 CIDR.  For the valid CIDR `10.0.0.1/32`
the set of addresses strictly between network and broadcast is empty,
yet the function never returns a list: with fuel for its two iterations
it panics on the final slice (and with less fuel it has not exited the
loop), so it never returns the empty host list. -/
theorem C1_counterexample :
    parseCIDR "10.0.0.1/32" = some (167772161, 32) ∧
    getUsableIPs 2 "10.0.0.1/32" = ExecResult.panicked ∧
    (∀ fuel : Nat, getUsableIPs fuel "10.0.0.1/32" ≠ ExecResult.ok []) := by
  refine ⟨by decide, by decide, ?_⟩
  intro fuel
  match fuel with
  | 0 => decide
  | 1 => decide
  | f + 2 =>
    rw [getUsableIPs_panic_single (f + 2) _ 167772161 (by decide) (by decide) (by omega)]
    simp

/-- C1 (amended): for every valid IPv4 CIDR string with prefix length at
most 31 whose broadcast address is strictly below 255.255.255.255,
`getUsableIPs` returns exactly the host addresses of the subnet: the
addresses strictly between the network address and the broadcast
address, in ascending order, with network and broadcast excluded.  (The
claim's own example `200.0.0.0/27` falls in this range.)  The address
list is `range' (network+1) (2^(32-p) - 2)`; the second conjunct states
that its members are exactly the addresses strictly between network and
broadcast, and the third that it is strictly ascending. -/
theorem C1_getUsableIPs_hosts (s : String) (v p : Nat)
    (hs : parseCIDR s = some (v, p)) (hp : p ≤ 31)
    (hb : (v &&& cidrMask p) + (2 ^ (32 - p) - 1) < 2 ^ 32 - 1) :
    (∃ fuel : Nat, getUsableIPs fuel s =
      ExecResult.ok ((List.range' ((v &&& cidrMask p) + 1) (2 ^ (32 - p) - 2)).map ipString)) ∧
    (∀ a : Nat, a ∈ List.range' ((v &&& cidrMask p) + 1) (2 ^ (32 - p) - 2) ↔
      (v &&& cidrMask p) < a ∧ a < (v &&& cidrMask p) + (2 ^ (32 - p) - 1)) ∧
    List.Pairwise (· < ·) (List.range' ((v &&& cidrMask p) + 1) (2 ^ (32 - p) - 2)) := by
  have h2k : 2 ≤ 2 ^ (32 - p) := by
    calc (2 : Nat) = 2 ^ 1 := by norm_num
      _ ≤ 2 ^ (32 - p) := Nat.pow_le_pow_right (by omega) (by omega)
  refine ⟨⟨2 ^ (32 - p) + 1, ?_⟩, ?_, ?_⟩
  · exact getUsableIPs_ok_hosts (2 ^ (32 - p) + 1) s v p hs hp hb (by omega)
  · intro a
    rw [List.mem_range'_1]
    omega
  · exact List.pairwise_lt_range' _ _

/-- C1 (witness): the amended theorem applied to the claim's own example
`200.0.0.0/27`. -/
theorem C1_witness :
    parseCIDR "200.0.0.0/27" = some (3355443200, 27) ∧
    ((∃ fuel : Nat, getUsableIPs fuel "200.0.0.0/27" =
      ExecResult.ok ((List.range' ((3355443200 &&& cidrMask 27) + 1) (2 ^ (32 - 27) - 2)).map
        ipString)) ∧
    (∀ a : Nat, a ∈ List.range' ((3355443200 &&& cidrMask 27) + 1) (2 ^ (32 - 27) - 2) ↔
      (3355443200 &&& cidrMask 27) < a ∧
        a < (3355443200 &&& cidrMask 27) + (2 ^ (32 - 27) - 1)) ∧
    List.Pairwise (· < ·)
      (List.range' ((3355443200 &&& cidrMask 27) + 1) (2 ^ (32 - 27) - 2))) :=
  ⟨by decide,
   C1_getUsableIPs_hosts "200.0.0.0/27" 3355443200 27 (by decide) (by decide) (by decide)⟩

/-! ### Claim C2 -/

/-- C2: the claim states the expansion loop terminates for every valid
IPv4 CIDR, in particular for subnets whose broadcast address is
255.255.255.255 such as `0.0.0.0/0` and `255.255.255.252/30`.  The code
is wrong there: `i` is a `uint32`, so after `i = 4294967295` the
increment wraps to `0` and the guard `i <= finish` holds again, forever.
This theorem shows that for the two named subnets the loop exceeds any
amount of fuel. -/
theorem C2_expansion_loop_infinite :
    ∀ fuel : Nat,
      getUsableIPs fuel "255.255.255.252/30" = ExecResult.diverge ∧
      getUsableIPs fuel "0.0.0.0/0" = ExecResult.diverge := by
  intro fuel
  constructor
  · exact getUsableIPs_diverge_max fuel _ 4294967292 30 (by decide) (by decide) (by decide)
  · exact getUsableIPs_diverge_max fuel _ 0 0 (by decide) (by decide) (by decide)

/-! ### Claim C10 -/

/-- C10 (counterexample): the claim says the slice error branch is
reached for every valid /32 CIDR.  For `255.255.255.255/32` the single
address is 255.255.255.255, the loop never exits, and the slice is never
reached: the run diverges instead of panicking, and `len(ips) = 1` never
happens. -/
theorem C10_counterexample :
    parseCIDR "255.255.255.255/32" = some (4294967295, 32) ∧
    (∀ fuel : Nat,
      getUsableIPs fuel "255.255.255.255/32" = ExecResult.diverge ∧
      getUsableIPs fuel "255.255.255.255/32" ≠ ExecResult.panicked) := by
  refine ⟨by decide, ?_⟩
  intro fuel
  have h := getUsableIPs_diverge_max fuel "255.255.255.255/32" 4294967295 32
    (by decide) (by decide) (by decide)
  exact ⟨h, by rw [h]; simp⟩

/-- C10 (amended): for every valid /32 CIDR other than
`255.255.255.255/32`, the final slice `ips[1:len(ips)-1]` has invalid
bounds (`len(ips) = 1`) and the run panics once the loop's two
iterations of fuel are available; for prefix lengths at most 31 the
slice is never out of bounds (the run never panics: either it returns
a list with at least two entries sliced in bounds, or the loop never
reaches the slice). -/
theorem C10_slice_bounds (s : String) (v p : Nat) :
    (parseCIDR s = some (v, 32) → v < 2 ^ 32 - 1 → ∀ fuel : Nat, 2 ≤ fuel →
      getUsableIPs fuel s = ExecResult.panicked) ∧
    (parseCIDR s = some (v, p) → p ≤ 31 → ∀ fuel : Nat,
      getUsableIPs fuel s ≠ ExecResult.panicked) := by
  constructor
  · intro hs hv fuel hfuel
    exact getUsableIPs_panic_single fuel s v hs hv hfuel
  · intro hs hp fuel
    exact getUsableIPs_no_panic fuel s v p hs hp

/-- C10 (witness): the amended theorem applied to `10.0.0.1/32` (the
slice faults) and `10.0.0.0/30` (the slice is in bounds). -/
theorem C10_witness :
    getUsableIPs 2 "10.0.0.1/32" = ExecResult.panicked ∧
    getUsableIPs 8 "10.0.0.0/30" ≠ ExecResult.panicked :=
  ⟨(C10_slice_bounds "10.0.0.1/32" 167772161 0).1 (by decide) (by decide) 2 (by decide),
   (C10_slice_bounds "10.0.0.0/30" 167772160 30).2 (by decide) (by decide) 8⟩

/-! ### Sequencing helper -/

/-- A bind produces a normal value exactly when both stages do. -/
theorem ExecResult.bind_ok_iff {α β : Type} (e : ExecResult α) (f : α → ExecResult β) (b : β) :
    e.bind f = .ok b ↔ ∃ a, e = .ok a ∧ f a = .ok b := by
  cases e <;> simp [ExecResult.bind]

/-! ### The credential-loading phase

The three blocks below are textually identical in `main.go` (both
programs), `part_000` and `part_001` (second program), up to the error
reporter used (`fmt.Printf` + `os.Exit(2)` versus `log.Fatalln`), which
the embedding does not distinguish: both are `.fatal`.
-/

/-- Reading `config.json` next to the executable: an absent file leaves
the zero `ConfigFile`; a file that fails to unmarshal exits. -/
def loadConfig : FileState ConfigFile → ExecResult ConfigFile
  | .absent => .ok { apiKey := "", sites := [] }
  | .malformed => .fatal
  | .parsed c => .ok c

/-- The `Load apiKey to sucuri` block: the `--key` flag wins; otherwise
a non-empty config-file key is used; otherwise the program exits. -/
def loadApiKey (flagKey : String) (cfg : ConfigFile) : ExecResult String :=
  if flagKey = "" then
    if cfg.apiKey ≠ "" then .ok cfg.apiKey else .fatal
  else .ok flagKey

/-- The `Load apiSecret to sucuri` block: exactly one of `--secret` and
`--site` must be given; `--site` must name a non-empty entry of the
config file's `sites` map. -/
def loadApiSecret (flagSecret site : String) (cfg : ConfigFile) : ExecResult String :=
  if flagSecret = "" ∧ site ≠ "" then
    if mapIndex cfg.sites site ≠ "" then .ok (mapIndex cfg.sites site) else .fatal
  else if flagSecret ≠ "" ∧ site = "" then .ok flagSecret
  else if flagSecret = "" ∧ site = "" then .fatal
  else .fatal

/-- Characterization of a successful `loadApiKey`. -/
theorem loadApiKey_ok (flagKey : String) (cfg : ConfigFile) (k : String)
    (h : loadApiKey flagKey cfg = .ok k) :
    k ≠ "" ∧ (flagKey ≠ "" → k = flagKey) ∧ (flagKey = "" → k = cfg.apiKey) := by
  unfold loadApiKey at h
  by_cases hf : flagKey = ""
  · rw [if_pos hf] at h
    by_cases hc : cfg.apiKey ≠ ""
    · rw [if_pos hc] at h
      simp only [ExecResult.ok.injEq] at h
      subst h
      exact ⟨hc, fun hk => absurd hf hk, fun _ => rfl⟩
    · rw [if_neg hc] at h
      exact absurd h (by simp)
  · rw [if_neg hf] at h
    simp only [ExecResult.ok.injEq] at h
    subst h
    exact ⟨hf, fun _ => rfl, fun hk => absurd hk hf⟩

/-- Characterization of a successful `loadApiSecret`. -/
theorem loadApiSecret_ok (flagSecret site : String) (cfg : ConfigFile) (sec : String)
    (h : loadApiSecret flagSecret site cfg = .ok sec) :
    sec ≠ "" ∧
      ((flagSecret ≠ "" ∧ site = "" ∧ sec = flagSecret) ∨
        (flagSecret = "" ∧ site ≠ "" ∧ mapIndex cfg.sites site = sec)) := by
  unfold loadApiSecret at h
  by_cases h1 : flagSecret = "" ∧ site ≠ ""
  · rw [if_pos h1] at h
    by_cases h2 : mapIndex cfg.sites site ≠ ""
    · rw [if_pos h2] at h
      simp only [ExecResult.ok.injEq] at h
      subst h
      exact ⟨h2, Or.inr ⟨h1.1, h1.2, rfl⟩⟩
    · rw [if_neg h2] at h
      exact absurd h (by simp)
  · rw [if_neg h1] at h
    by_cases h2 : flagSecret ≠ "" ∧ site = ""
    · rw [if_pos h2] at h
      simp only [ExecResult.ok.injEq] at h
      subst h
      exact ⟨h2.1, Or.inl ⟨h2.1, h2.2, rfl⟩⟩
    · rw [if_neg h2] at h
      by_cases h3 : flagSecret = "" ∧ site = ""
      · rw [if_pos h3] at h
        exact absurd h (by simp)
      · rw [if_neg h3] at h
        exact absurd h (by simp)

/-! ### The submission phase

`request.Submit()` belongs to the external client library; its outcome
is modelled by an environment `env` assigning an outcome to each
request.  The spawn loop
`for _, request := range requests { wg.Add(1); go submitRequest(...) }`
runs one `submitRequest` per request; the trace below linearizes the
goroutines in spawn order, which is sound for the per-request counting
properties stated about it.
-/

/-- Success or failure of one `Submit` call, as decided by the
environment. -/
inductive Outcome where
  | success : Outcome
  | failure : Outcome
deriving DecidableEq, Repr

/-- An observable step of the submission phase. -/
inductive Event where
  | submitCall : SucuriRequest → Outcome → Event
  | wgDone : Event
deriving DecidableEq, Repr

/-- Function `submitRequest(request, wg)`: calls `request.Submit()` once — its
outcome is recorded in the trace but never inspected — then `wg.Done()`. -/
def submitRequest (env : SucuriRequest → Outcome) (r : SucuriRequest) : List Event :=
  [Event.submitCall r (env r), Event.wgDone]

/-- The `Process all Sucuri Requests` loop over a request list. -/
def processRequests (env : SucuriRequest → Outcome) (rs : List SucuriRequest) : List Event :=
  rs.foldl (fun acc r => acc ++ submitRequest env r) []

/-- The request submitted by an event, if any. -/
def submitProj : Event → Option SucuriRequest
  | .submitCall r _ => some r
  | .wgDone => none

/-- Forget the outcome recorded in an event: what of the trace is
visible to the rest of the program. -/
def eraseOutcome : Event → Event
  | .submitCall r _ => .submitCall r .success
  | .wgDone => .wgDone

/-- After the loop, `main` falls off its end: the process exit status is
0 no matter what the submission outcomes were. -/
def runSubmission (env : SucuriRequest → Outcome) (rs : List SucuriRequest) :
    List Event × Nat :=
  (processRequests env rs, 0)

/-- The submission loop emits exactly one `Submit` call per request, in
order. -/
theorem processRequests_filterMap (env : SucuriRequest → Outcome) (rs : List SucuriRequest) :
    (processRequests env rs).filterMap submitProj = rs := by
  suffices h : ∀ acc : List Event,
      (rs.foldl (fun a r => a ++ submitRequest env r) acc).filterMap submitProj =
        acc.filterMap submitProj ++ rs by
    simpa using h []
  induction rs with
  | nil => intro acc; simp
  | cons r rest ih =>
    intro acc
    simp only [List.foldl_cons, ih]
    simp [submitRequest, submitProj]

/-- The outcome-erased trace of the submission loop does not depend on
the environment. -/
theorem processRequests_erase (env₁ env₂ : SucuriRequest → Outcome)
    (rs : List SucuriRequest) :
    (processRequests env₁ rs).map eraseOutcome = (processRequests env₂ rs).map eraseOutcome := by
  suffices h : ∀ acc₁ acc₂ : List Event, acc₁.map eraseOutcome = acc₂.map eraseOutcome →
      (rs.foldl (fun a r => a ++ submitRequest env₁ r) acc₁).map eraseOutcome =
        (rs.foldl (fun a r => a ++ submitRequest env₂ r) acc₂).map eraseOutcome by
    exact h [] [] rfl
  induction rs with
  | nil => intro acc₁ acc₂ h; simpa using h
  | cons r rest ih =>
    intro acc₁ acc₂ h
    simp only [List.foldl_cons]
    apply ih
    simp [h, submitRequest, eraseOutcome]

/-! ### Variant V1: the first program of `main.go` (lines 10-208) -/

namespace V1

/-- The `Template` struct of V1.  JSON maps are embedded as association
lists; the `BlacklistIP` field exists in the Go struct but is never read
by V1's `main`. -/
structure Template where
  whitelistIPs : List String
  blacklistIPs : List String
  whitelistPaths : List (String × String)
  settings : List (String × String)
deriving DecidableEq, Repr

/-- The inputs of one run of V1: the command-line flags and the state of
the two files the program may read. -/
structure Inputs where
  key : String
  secret : String
  whitelistIP : String
  blacklistIP : String
  whitelistSubnet : String
  whitelistPath : String
  whitelistPathPattern : String
  delete : Bool
  templatePath : String
  site : String
  config : FileState ConfigFile
  templateFile : FileState Template
deriving DecidableEq, Repr

/-- The state of V1's `main` at its end: the loaded client, the local
variables, the accumulated request list, and the requests handed to
`submitRequest` by the final loop. -/
structure Final where
  sucuri : Sucuri
  wIPs : List String
  bIPs : List String
  wPaths : List (String × String)
  requests : List SucuriRequest
  submitted : List SucuriRequest
deriving DecidableEq, Repr

/-- Function `whitelistIPs` of V1 (`main.go` lines 44-50). -/
def whitelistIPs (IPs : List String) (del : Bool) (sucuri : Sucuri) : List SucuriRequest :=
  IPs.foldl (fun requests ip => requests ++ [sucuri.WhitelistIP ip del]) []

/-- Function `blacklistIPs` of V1 (`main.go` lines 53-59). -/
def blacklistIPs (IPs : List String) (del : Bool) (sucuri : Sucuri) : List SucuriRequest :=
  IPs.foldl (fun requests ip => requests ++ [sucuri.BlacklistIP ip del]) []

/-- V1's template block (`main.go` lines 156-187): a non-empty template
`whitelistIPs` list replaces `wIPs`, a non-empty `whitelistPaths` map
replaces `wPaths`, and one `UpdateSetting` request is built per template
setting. -/
def applyTemplate (inp : Inputs) (sucuri : Sucuri)
    (wIPs : List String) (wPaths : List (String × String)) :
    ExecResult (List SucuriRequest × List String × List (String × String)) :=
  if inp.templatePath ≠ "" then
    match inp.templateFile with
    | .absent => .fatal
    | .malformed => .fatal
    | .parsed t =>
      let wIPs1 := if t.whitelistIPs ≠ [] then t.whitelistIPs else wIPs
      let wPaths1 := if t.whitelistPaths ≠ [] then t.whitelistPaths else wPaths
      .ok (t.settings.map (fun kv => sucuri.UpdateSetting kv.1 kv.2), wIPs1, wPaths1)
  else .ok ([], wIPs, wPaths)

/-- V1 after the credentials are loaded (`main.go` lines 128-207):
flag parsing into locals, the template block, request generation, and
the submission loop (which in V1 is at top level, so `submitted` is the
whole request list). -/
def rest (inp : Inputs) (sucuri : Sucuri) : ExecResult Final :=
  let wIPs0 := if inp.whitelistIP ≠ "" then splitComma inp.whitelistIP else []
  let bIPs0 := if inp.blacklistIP ≠ "" then splitComma inp.blacklistIP else []
  let wPaths0 :=
    if inp.whitelistPath ≠ "" ∧ inp.whitelistPathPattern ≠ "" then
      [(inp.whitelistPath, inp.whitelistPathPattern)]
    else []
  (applyTemplate inp sucuri wIPs0 wPaths0).bind fun x =>
  match x with
  | (reqs0, wIPs1, wPaths1) =>
    let requests := reqs0 ++
      (if wIPs1 ≠ [] then whitelistIPs wIPs1 inp.delete sucuri else []) ++
      (if bIPs0 ≠ [] then blacklistIPs bIPs0 inp.delete sucuri else []) ++
      (if wPaths1 ≠ [] then wPaths1.map (fun kv => sucuri.WhitelistPath kv.1 kv.2) else [])
    .ok { sucuri := sucuri, wIPs := wIPs1, bIPs := bIPs0, wPaths := wPaths1,
          requests := requests, submitted := requests }

/-- V1's `main`. -/
def main (inp : Inputs) : ExecResult Final :=
  (loadConfig inp.config).bind fun configFile =>
  (loadApiKey inp.key configFile).bind fun apiKey =>
  (loadApiSecret inp.secret inp.site configFile).bind fun apiSecret =>
  rest inp { Url := "https://waf.sucuri.net/api?v2", ApiKey := apiKey, ApiSecret := apiSecret }

end V1

/-! ### Variant V2: the second program of `main.go` (lines 223-467) -/

namespace V2

/-- The `Template` struct of V2: V1's fields plus the two subnet lists. -/
structure Template where
  whitelistIPs : List String
  blacklistIPs : List String
  whitelistSubnets : List String
  blacklistSubnets : List String
  whitelistPaths : List (String × String)
  settings : List (String × String)
deriving DecidableEq, Repr

/-- The inputs of one run of V2. -/
structure Inputs where
  key : String
  secret : String
  whitelistIP : String
  blacklistIP : String
  whitelistSubnet : String
  blacklistSubnet : String
  whitelistPath : String
  whitelistPathPattern : String
  delete : Bool
  templatePath : String
  site : String
  config : FileState ConfigFile
  templateFile : FileState Template
deriving DecidableEq, Repr

/-- The state of V2's `main` at its end. -/
structure Final where
  sucuri : Sucuri
  wIPs : List String
  bIPs : List String
  wPaths : List (String × String)
  requests : List SucuriRequest
  submitted : List SucuriRequest
deriving DecidableEq, Repr

/-- Function `whitelistIPs` of V2 (`main.go` lines 262-268), a verbatim copy of
V1's. -/
def whitelistIPs (IPs : List String) (del : Bool) (sucuri : Sucuri) : List SucuriRequest :=
  IPs.foldl (fun requests ip => requests ++ [sucuri.WhitelistIP ip del]) []

/-- Function `blacklistIPs` of V2 (`main.go` lines 271-277). -/
def blacklistIPs (IPs : List String) (del : Bool) (sucuri : Sucuri) : List SucuriRequest :=
  IPs.foldl (fun requests ip => requests ++ [sucuri.BlacklistIP ip del]) []

/-- The template-subnet loops (`main.go` lines 426-438):
`for _, subnet := range ... { ips := getUsableIPs(subnet); acc = append(acc, ips...) }`. -/
def expandAppend (fuel : Nat) : List String → List String → ExecResult (List String)
  | [], acc => .ok acc
  | subnet :: restSubnets, acc =>
    (getUsableIPs fuel subnet).bind fun ips => expandAppend fuel restSubnets (acc ++ ips)

/-- V2's flag-parsing into locals (`main.go` lines 378-401).  The
blacklist-subnet branch transcribes the code's
`bIPs = append(wIPs, ips...)`: the (already subnet-extended) whitelist
list, not the blacklist list, is the base of the append. -/
def locals (fuel : Nat) (inp : Inputs) :
    ExecResult (List String × List String × List (String × String)) :=
  let wIPs0 := if inp.whitelistIP ≠ "" then splitComma inp.whitelistIP else []
  let bIPs0 := if inp.blacklistIP ≠ "" then splitComma inp.blacklistIP else []
  (if inp.whitelistSubnet ≠ "" then
      (getUsableIPs fuel inp.whitelistSubnet).bind fun ips => .ok (wIPs0 ++ ips)
    else .ok wIPs0).bind fun wIPs1 =>
  (if inp.blacklistSubnet ≠ "" then
      (getUsableIPs fuel inp.blacklistSubnet).bind fun ips => .ok (wIPs1 ++ ips)
    else .ok bIPs0).bind fun bIPs1 =>
  let wPaths0 :=
    if inp.whitelistPath ≠ "" ∧ inp.whitelistPathPattern ≠ "" then
      [(inp.whitelistPath, inp.whitelistPathPattern)]
    else []
  .ok (wIPs1, bIPs1, wPaths0)

/-- V2's template block (`main.go` lines 402-446): a non-empty template
`whitelistIPs` replaces `wIPs`, a non-empty `whitelistPaths` replaces
`wPaths`, the template subnet lists are expanded and appended, and one
`UpdateSetting` request is built per template setting. -/
def applyTemplate (fuel : Nat) (inp : Inputs) (sucuri : Sucuri)
    (wIPs bIPs : List String) (wPaths : List (String × String)) :
    ExecResult (List SucuriRequest × List String × List String × List (String × String)) :=
  if inp.templatePath ≠ "" then
    match inp.templateFile with
    | .absent => .fatal
    | .malformed => .fatal
    | .parsed t =>
      let wIPs2 := if t.whitelistIPs ≠ [] then t.whitelistIPs else wIPs
      let wPaths2 := if t.whitelistPaths ≠ [] then t.whitelistPaths else wPaths
      (expandAppend fuel t.whitelistSubnets wIPs2).bind fun wIPs3 =>
      (expandAppend fuel t.blacklistSubnets bIPs).bind fun bIPs2 =>
      .ok (t.settings.map (fun kv => sucuri.UpdateSetting kv.1 kv.2), wIPs3, bIPs2, wPaths2)
  else .ok ([], wIPs, bIPs, wPaths)

/-- V2's request generation (`main.go` lines 448-459). -/
def genRequests (sucuri : Sucuri) (del : Bool) (reqs0 : List SucuriRequest)
    (wIPs bIPs : List String) (wPaths : List (String × String)) : List SucuriRequest :=
  reqs0 ++
    (if wIPs ≠ [] then whitelistIPs wIPs del sucuri else []) ++
    (if bIPs ≠ [] then blacklistIPs bIPs del sucuri else []) ++
    (if wPaths ≠ [] then wPaths.map (fun kv => sucuri.WhitelistPath kv.1 kv.2) else [])

/-- V2 after the credentials are loaded: locals, template, request
generation, and the top-level submission loop. -/
def rest (fuel : Nat) (inp : Inputs) (sucuri : Sucuri) : ExecResult Final :=
  (locals fuel inp).bind fun x =>
  match x with
  | (wIPs1, bIPs1, wPaths0) =>
    (applyTemplate fuel inp sucuri wIPs1 bIPs1 wPaths0).bind fun y =>
    match y with
    | (reqs0, wIPs3, bIPs2, wPaths2) =>
      let requests := genRequests sucuri inp.delete reqs0 wIPs3 bIPs2 wPaths2
      .ok { sucuri := sucuri, wIPs := wIPs3, bIPs := bIPs2, wPaths := wPaths2,
            requests := requests, submitted := requests }

/-- V2's `main`. -/
def main (fuel : Nat) (inp : Inputs) : ExecResult Final :=
  (loadConfig inp.config).bind fun configFile =>
  (loadApiKey inp.key configFile).bind fun apiKey =>
  (loadApiSecret inp.secret inp.site configFile).bind fun apiSecret =>
  rest fuel inp { Url := "https://waf.sucuri.net/api?v2", ApiKey := apiKey, ApiSecret := apiSecret }

end V2

/-! ### Variant P0: the program of `part_000` -/

namespace P0

/-- The `Template` struct of P0: whitelist IPs, whitelist paths and
settings only. -/
structure Template where
  whitelistIPs : List String
  whitelistPaths : List (String × String)
  settings : List (String × String)
deriving DecidableEq, Repr

/-- The inputs of one run of P0 (it has no blacklist or path flags). -/
structure Inputs where
  key : String
  secret : String
  whitelistIP : String
  whitelistSubnet : String
  delete : Bool
  templatePath : String
  site : String
  config : FileState ConfigFile
  templateFile : FileState Template
deriving DecidableEq, Repr

/-- The state of P0's `main` at its end. -/
structure Final where
  sucuri : Sucuri
  requests : List SucuriRequest
  submitted : List SucuriRequest
deriving DecidableEq, Repr

/-- Function `whitelistIPs` of P0 (`part_000` lines 47-53). -/
def whitelistIPs (IPs : List String) (del : Bool) (sucuri : Sucuri) : List SucuriRequest :=
  IPs.foldl (fun requests ip => requests ++ [sucuri.WhitelistIP ip del]) []

/-- P0 after the credentials are loaded (`part_000` lines 119-173).
The `--whitelistIP` requests are appended first (with the run's delete
flag); the template block appends the template's whitelist requests
(with delete hard-coded to `false` at line 150), path and setting
requests — and contains the submission loop, so a run without
`--template` submits nothing. -/
def rest (inp : Inputs) (sucuri : Sucuri) : ExecResult Final :=
  let reqs0 :=
    if inp.whitelistIP ≠ "" then whitelistIPs (splitComma inp.whitelistIP) inp.delete sucuri
    else []
  if inp.templatePath ≠ "" then
    match inp.templateFile with
    | .absent => .fatal
    | .malformed => .fatal
    | .parsed t =>
      let reqs1 := reqs0 ++
        (if t.whitelistIPs ≠ [] then whitelistIPs t.whitelistIPs false sucuri else [])
      let reqs2 := reqs1 ++
        (if t.whitelistPaths ≠ [] then
          t.whitelistPaths.map (fun kv => sucuri.WhitelistPath kv.1 kv.2)
        else [])
      let reqs3 := reqs2 ++
        (if t.settings ≠ [] then
          t.settings.map (fun kv => sucuri.UpdateSetting kv.1 kv.2)
        else [])
      .ok { sucuri := sucuri, requests := reqs3, submitted := reqs3 }
  else .ok { sucuri := sucuri, requests := reqs0, submitted := [] }

/-- P0's `main`. -/
def main (inp : Inputs) : ExecResult Final :=
  (loadConfig inp.config).bind fun configFile =>
  (loadApiKey inp.key configFile).bind fun apiKey =>
  (loadApiSecret inp.secret inp.site configFile).bind fun apiSecret =>
  rest inp { Url := "https://waf.sucuri.net/api?v2", ApiKey := apiKey, ApiSecret := apiSecret }

end P0

/-! ### Variant P1b: the second program of `part_001` -/

namespace P1b

/-- Function `whitelistIPs` of P1b (`part_001` lines 139-145). -/
def whitelistIPs (IPs : List String) (del : Bool) (sucuri : Sucuri) : List SucuriRequest :=
  IPs.foldl (fun requests ip => requests ++ [sucuri.WhitelistIP ip del]) []

/-- Function `blacklistIPs` of P1b (`part_001` lines 148-154). -/
def blacklistIPs (IPs : List String) (del : Bool) (sucuri : Sucuri) : List SucuriRequest :=
  IPs.foldl (fun requests ip => requests ++ [sucuri.BlacklistIP ip del]) []

/-- The `Template` struct of P1b (`part_001` lines 117-125): V2's fields
plus `blacklistPaths`. -/
structure Template where
  whitelistIPs : List String
  blacklistIPs : List String
  whitelistSubnets : List String
  blacklistSubnets : List String
  whitelistPaths : List (String × String)
  blacklistPaths : List (String × String)
  settings : List (String × String)
deriving DecidableEq, Repr

/-- The inputs of one run of P1b: V2's flags plus `--blacklistPath`, the
shared `--pathPattern`, `--settingOptions`, `--setting` and
`--settingVal`. -/
structure Inputs where
  key : String
  secret : String
  whitelistIP : String
  blacklistIP : String
  whitelistSubnet : String
  blacklistSubnet : String
  whitelistPath : String
  blacklistPath : String
  pathPattern : String
  delete : Bool
  showSettingOptions : Bool
  setting : String
  settingVal : String
  templatePath : String
  site : String
  config : FileState ConfigFile
  templateFile : FileState Template
deriving DecidableEq, Repr

/-- The state of P1b's `main` at its end. -/
structure Final where
  sucuri : Sucuri
  wIPs : List String
  bIPs : List String
  wPaths : List (String × String)
  bPaths : List (String × String)
  settings : List (String × String)
  requests : List SucuriRequest
  submitted : List SucuriRequest
deriving DecidableEq, Repr

/-- Assignment `m[k] = v` on a Go `map[string]string` embedded as an
association list: an existing key is overwritten, a new key appended. -/
def mapAssign (m : List (String × String)) (k v : String) : List (String × String) :=
  if (m.find? (fun e => e.1 = k)).isSome then
    m.map (fun e => if e.1 = k then (k, v) else e)
  else m ++ [(k, v)]

/-- The template-subnet loops of P1b (`part_001` lines 392-405), a
verbatim copy of V2's. -/
def expandAppend (fuel : Nat) : List String → List String → ExecResult (List String)
  | [], acc => .ok acc
  | subnet :: restSubnets, acc =>
    (getUsableIPs fuel subnet).bind fun ips => expandAppend fuel restSubnets (acc ++ ips)

/-- P1b's flag-parsing into locals (`part_001` lines 317-363).  Line 344
has the same `bIPs = append(wIPs, ips...)` slip as V2.  The `--setting`
flag with no `--settingVal` only prints a message, leaving the settings
map empty. -/
def locals (fuel : Nat) (inp : Inputs) :
    ExecResult (List String × List String × List (String × String) ×
      List (String × String) × List (String × String)) :=
  let wIPs0 := if inp.whitelistIP ≠ "" then splitComma inp.whitelistIP else []
  let bIPs0 := if inp.blacklistIP ≠ "" then splitComma inp.blacklistIP else []
  (if inp.whitelistSubnet ≠ "" then
      (getUsableIPs fuel inp.whitelistSubnet).bind fun ips => .ok (wIPs0 ++ ips)
    else .ok wIPs0).bind fun wIPs1 =>
  (if inp.blacklistSubnet ≠ "" then
      (getUsableIPs fuel inp.blacklistSubnet).bind fun ips => .ok (wIPs1 ++ ips)
    else .ok bIPs0).bind fun bIPs1 =>
  let wPaths0 :=
    if inp.whitelistPath ≠ "" ∧ inp.pathPattern ≠ "" then
      [(inp.whitelistPath, inp.pathPattern)]
    else []
  let bPaths0 :=
    if inp.blacklistPath ≠ "" ∧ inp.pathPattern ≠ "" then
      [(inp.blacklistPath, inp.pathPattern)]
    else []
  let settings0 :=
    if inp.setting ≠ "" ∧ inp.settingVal ≠ "" then [(inp.setting, inp.settingVal)]
    else []
  .ok (wIPs1, bIPs1, wPaths0, bPaths0, settings0)

/-- P1b's template block (`part_001` lines 365-412): non-empty template
`whitelistIPs`, `whitelistPaths` and `blacklistPaths` replace the
locals, the template subnet lists are expanded and appended, and the
template settings are merged into the settings map (unlike V1/V2, which
turn them into requests immediately). -/
def applyTemplate (fuel : Nat) (inp : Inputs)
    (wIPs bIPs : List String)
    (wPaths bPaths settings : List (String × String)) :
    ExecResult (List String × List String × List (String × String) ×
      List (String × String) × List (String × String)) :=
  if inp.templatePath ≠ "" then
    match inp.templateFile with
    | .absent => .fatal
    | .malformed => .fatal
    | .parsed t =>
      let wIPs2 := if t.whitelistIPs ≠ [] then t.whitelistIPs else wIPs
      let wPaths2 := if t.whitelistPaths ≠ [] then t.whitelistPaths else wPaths
      let bPaths2 := if t.blacklistPaths ≠ [] then t.blacklistPaths else bPaths
      (expandAppend fuel t.whitelistSubnets wIPs2).bind fun wIPs3 =>
      (expandAppend fuel t.blacklistSubnets bIPs).bind fun bIPs2 =>
      let settings2 := t.settings.foldl (fun m kv => mapAssign m kv.1 kv.2) settings
      .ok (wIPs3, bIPs2, wPaths2, bPaths2, settings2)
  else .ok (wIPs, bIPs, wPaths, bPaths, settings)

/-- P1b's request generation (`part_001` lines 414-435): whitelist IPs,
blacklist IPs, whitelist paths, blacklist paths, then settings. -/
def genRequests (sucuri : Sucuri) (del : Bool) (wIPs bIPs : List String)
    (wPaths bPaths settings : List (String × String)) : List SucuriRequest :=
  (if wIPs ≠ [] then whitelistIPs wIPs del sucuri else []) ++
    (if bIPs ≠ [] then blacklistIPs bIPs del sucuri else []) ++
    (if wPaths ≠ [] then wPaths.map (fun kv => sucuri.WhitelistPath kv.1 kv.2) else []) ++
    (if bPaths ≠ [] then bPaths.map (fun kv => sucuri.BlacklistPath kv.1 kv.2) else []) ++
    (if settings ≠ [] then settings.map (fun kv => sucuri.UpdateSetting kv.1 kv.2) else [])

/-- P1b after the credentials are loaded: locals, template, request
generation, and the top-level submission loop (`part_001` lines
437-442), so `submitted` is the whole request list. -/
def rest (fuel : Nat) (inp : Inputs) (sucuri : Sucuri) : ExecResult Final :=
  (locals fuel inp).bind fun x =>
  match x with
  | (wIPs1, bIPs1, wPaths0, bPaths0, settings0) =>
    (applyTemplate fuel inp wIPs1 bIPs1 wPaths0 bPaths0 settings0).bind fun y =>
    match y with
    | (wIPs3, bIPs2, wPaths2, bPaths2, settings2) =>
      let requests := genRequests sucuri inp.delete wIPs3 bIPs2 wPaths2 bPaths2 settings2
      .ok { sucuri := sucuri, wIPs := wIPs3, bIPs := bIPs2, wPaths := wPaths2,
            bPaths := bPaths2, settings := settings2,
            requests := requests, submitted := requests }

/-- P1b's `main` (`part_001` lines 183-443): `--settingOptions` prints
the settings usage table and exits (code 0) before anything else; the
credential blocks are then textually identical to V1/V2/P0's. -/
def main (fuel : Nat) (inp : Inputs) : ExecResult Final :=
  if inp.showSettingOptions then .fatal
  else
    (loadConfig inp.config).bind fun configFile =>
    (loadApiKey inp.key configFile).bind fun apiKey =>
    (loadApiSecret inp.secret inp.site configFile).bind fun apiSecret =>
    rest fuel inp { Url := "https://waf.sucuri.net/api?v2", ApiKey := apiKey, ApiSecret := apiSecret }

end P1b

/-! ### Variant P1a: the first program of `part_001` -/

namespace P1a

/-- The `Template` struct of P1a (`part_001` lines 24-28): whitelist
paths are a plain string list in this variant, and only `settings` is
ever read by its `main`. -/
structure Template where
  whitelistIPs : List String
  whitelistPaths : List String
  settings : List (String × String)
deriving DecidableEq, Repr

/-- The inputs of one run of P1a: it has no `--site` flag and reads no
config file. -/
structure Inputs where
  key : String
  secret : String
  whitelistIP : String
  whitelistSubnet : String
  delete : Bool
  templatePath : String
  templateFile : FileState Template
deriving DecidableEq, Repr

/-- The state of P1a's `main` at its end.  `discarded` holds the
requests built by the bare `sucuri.WhitelistIP(ip, *delete)` calls
(`part_001` lines 56-61), whose results the code drops: they never
enter a request list. -/
structure Final where
  sucuri : Sucuri
  discarded : List SucuriRequest
  requests : List SucuriRequest
  submitted : List SucuriRequest
deriving DecidableEq, Repr

/-- P1a's `main` (`part_001` lines 35-93).  It exits only when both
`--key` and `--secret` are empty; the `requests` list and wait group are
declared inside the `if len(*templatePath) > 0` block, which also holds
the submission loop, and only template settings ever reach the list. -/
def main (inp : Inputs) : ExecResult Final :=
  if inp.key = "" ∧ inp.secret = "" then .fatal
  else
    let sucuri : Sucuri :=
      { Url := "https://waf.sucuri.net/api?v2", ApiKey := inp.key, ApiSecret := inp.secret }
    let discarded :=
      if inp.whitelistIP ≠ "" then
        (splitComma inp.whitelistIP).map (fun ip => sucuri.WhitelistIP ip inp.delete)
      else []
    if inp.templatePath ≠ "" then
      match inp.templateFile with
      | .absent => .fatal
      | .malformed => .fatal
      | .parsed t =>
        let requests := t.settings.map (fun kv => sucuri.UpdateSetting kv.1 kv.2)
        .ok { sucuri := sucuri, discarded := discarded,
              requests := requests, submitted := requests }
    else .ok { sucuri := sucuri, discarded := discarded, requests := [], submitted := [] }

end P1a

/-! ### Helper lemmas about the request-building folds -/

/-- The append-one-per-element fold used by all `whitelistIPs` /
`blacklistIPs` copies is a map. -/
theorem foldl_append_map {α β : Type} (f : α → β) (l : List α) :
    ∀ acc : List β, l.foldl (fun r x => r ++ [f x]) acc = acc ++ l.map f := by
  induction l with
  | nil => intro acc; simp
  | cons x xs ih => intro acc; simp [ih]

/-- Go `strings.Split` never returns an empty slice. -/
theorem splitCommaAux_ne_nil : ∀ (cs acc : List Char), splitCommaAux cs acc ≠ [] := by
  intro cs
  induction cs with
  | nil => intro acc; simp [splitCommaAux]
  | cons c cs2 ih =>
    intro acc
    unfold splitCommaAux
    by_cases hc : c = ','
    · rw [if_pos hc]; simp
    · rw [if_neg hc]; exact ih (c :: acc)

/-- Hence `splitComma` always returns at least one field. -/
theorem splitComma_ne_nil (s : String) : splitComma s ≠ [] :=
  splitCommaAux_ne_nil s.data []

/-- V1's `whitelistIPs` builds one request per input IP, in order. -/
theorem whitelistIPs_map_V1 (IPs : List String) (del : Bool) (s : Sucuri) :
    V1.whitelistIPs IPs del s = IPs.map (fun ip => s.WhitelistIP ip del) := by
  unfold V1.whitelistIPs
  rw [foldl_append_map]
  simp

/-- V1's `blacklistIPs` builds one request per input IP, in order. -/
theorem blacklistIPs_map_V1 (IPs : List String) (del : Bool) (s : Sucuri) :
    V1.blacklistIPs IPs del s = IPs.map (fun ip => s.BlacklistIP ip del) := by
  unfold V1.blacklistIPs
  rw [foldl_append_map]
  simp

/-- V2's `whitelistIPs` builds one request per input IP, in order. -/
theorem whitelistIPs_map_V2 (IPs : List String) (del : Bool) (s : Sucuri) :
    V2.whitelistIPs IPs del s = IPs.map (fun ip => s.WhitelistIP ip del) := by
  unfold V2.whitelistIPs
  rw [foldl_append_map]
  simp

/-- V2's `blacklistIPs` builds one request per input IP, in order. -/
theorem blacklistIPs_map_V2 (IPs : List String) (del : Bool) (s : Sucuri) :
    V2.blacklistIPs IPs del s = IPs.map (fun ip => s.BlacklistIP ip del) := by
  unfold V2.blacklistIPs
  rw [foldl_append_map]
  simp

/-- The template-subnet loop only appends to its accumulator. -/
theorem expandAppend_extends (fuel : Nat) :
    ∀ (subnets acc r : List String), V2.expandAppend fuel subnets acc = .ok r →
      ∃ ext, r = acc ++ ext := by
  intro subnets
  induction subnets with
  | nil =>
    intro acc r h
    simp only [V2.expandAppend, ExecResult.ok.injEq] at h
    exact ⟨[], by simp [h]⟩
  | cons subnet rest ih =>
    intro acc r h
    simp only [V2.expandAppend] at h
    rw [ExecResult.bind_ok_iff] at h
    obtain ⟨ips, _, h⟩ := h
    obtain ⟨ext2, hext⟩ := ih (acc ++ ips) r h
    exact ⟨ips ++ ext2, by simp [hext]⟩

/-- Every normal result of V2's tail carries the client it was given. -/
theorem rest_sucuri_V2 (fuel : Nat) (inp : V2.Inputs) (su : Sucuri) (out : V2.Final)
    (h : V2.rest fuel inp su = .ok out) : out.sucuri = su := by
  unfold V2.rest at h
  rw [ExecResult.bind_ok_iff] at h
  obtain ⟨x, _, h⟩ := h
  obtain ⟨wl, bl, wp⟩ := x
  dsimp only at h
  rw [ExecResult.bind_ok_iff] at h
  obtain ⟨y, _, h⟩ := h
  obtain ⟨r0, w3, b2, p2⟩ := y
  dsimp only at h
  simp only [ExecResult.ok.injEq] at h
  rw [← h]

/-- Every normal result of V2's tail submits exactly its request list. -/
theorem rest_submitted_V2 (fuel : Nat) (inp : V2.Inputs) (su : Sucuri) (out : V2.Final)
    (h : V2.rest fuel inp su = .ok out) : out.submitted = out.requests := by
  unfold V2.rest at h
  rw [ExecResult.bind_ok_iff] at h
  obtain ⟨x, _, h⟩ := h
  obtain ⟨wl, bl, wp⟩ := x
  dsimp only at h
  rw [ExecResult.bind_ok_iff] at h
  obtain ⟨y, _, h⟩ := h
  obtain ⟨r0, w3, b2, p2⟩ := y
  dsimp only at h
  simp only [ExecResult.ok.injEq] at h
  rw [← h]

/-- Every normal result of V1's tail submits exactly its request list. -/
theorem rest_submitted_V1 (inp : V1.Inputs) (su : Sucuri) (out : V1.Final)
    (h : V1.rest inp su = .ok out) : out.submitted = out.requests := by
  unfold V1.rest at h
  rw [ExecResult.bind_ok_iff] at h
  obtain ⟨x, _, h⟩ := h
  obtain ⟨r0, w1, p1⟩ := x
  dsimp only at h
  simp only [ExecResult.ok.injEq] at h
  rw [← h]

/-! ### Claim C5 -/

/-- C5: request submission is fire-and-forget.  `submitRequest` calls
`Submit` exactly once per request and performs no retry (its trace holds
exactly one submit event, and the loop's trace holds exactly one submit
event per accumulated request, in order); the outcome is discarded: the
outcome-erased trace and the exit status are the same for any two
environments, i.e. whether any submission succeeds or fails. -/
theorem C5_fire_and_forget :
    ∀ (env₁ env₂ : SucuriRequest → Outcome) (r : SucuriRequest) (rs : List SucuriRequest),
      (submitRequest env₁ r).filterMap submitProj = [r] ∧
      (processRequests env₁ rs).filterMap submitProj = rs ∧
      (processRequests env₁ rs).map eraseOutcome = (processRequests env₂ rs).map eraseOutcome ∧
      (runSubmission env₁ rs).2 = (runSubmission env₂ rs).2 := by
  intro env₁ env₂ r rs
  refine ⟨?_, processRequests_filterMap env₁ rs, processRequests_erase env₁ env₂ rs, rfl⟩
  simp [submitRequest, submitProj]

/-! ### Claim C6 -/

/-- C6: the `whitelistIPs` helper of the historical variants (`main.go`
first program, `main.go` second program, `part_000`, `part_001` second
program) is the same function: on every IP list, delete flag and client
it returns the same request list, namely one `WhitelistIP` request per
input IP, in input order. -/
theorem C6_whitelistIPs_equivalent :
    ∀ (IPs : List String) (del : Bool) (s : Sucuri),
      V1.whitelistIPs IPs del s = P0.whitelistIPs IPs del s ∧
      V1.whitelistIPs IPs del s = P1b.whitelistIPs IPs del s ∧
      V1.whitelistIPs IPs del s = V2.whitelistIPs IPs del s ∧
      V1.whitelistIPs IPs del s = IPs.map (fun ip => s.WhitelistIP ip del) := by
  intro IPs del s
  refine ⟨rfl, rfl, rfl, ?_⟩
  unfold V1.whitelistIPs
  rw [foldl_append_map]
  simp

/-! ### Inverting the credential phase of each `main` -/

/-- A successful V1 run factors through the credential loaders and the
tail. -/
theorem main_ok_inv_V1 (inp : V1.Inputs) (out : V1.Final) (h : V1.main inp = .ok out) :
    ∃ cfg k sec, loadConfig inp.config = .ok cfg ∧ loadApiKey inp.key cfg = .ok k ∧
      loadApiSecret inp.secret inp.site cfg = .ok sec ∧
      V1.rest inp { Url := "https://waf.sucuri.net/api?v2", ApiKey := k, ApiSecret := sec } =
        .ok out := by
  unfold V1.main at h
  rw [ExecResult.bind_ok_iff] at h
  obtain ⟨cfg, h1, h⟩ := h
  rw [ExecResult.bind_ok_iff] at h
  obtain ⟨k, h2, h⟩ := h
  rw [ExecResult.bind_ok_iff] at h
  obtain ⟨sec, h3, h⟩ := h
  exact ⟨cfg, k, sec, h1, h2, h3, h⟩

/-- A successful V2 run factors through the credential loaders and the
tail. -/
theorem main_ok_inv_V2 (fuel : Nat) (inp : V2.Inputs) (out : V2.Final)
    (h : V2.main fuel inp = .ok out) :
    ∃ cfg k sec, loadConfig inp.config = .ok cfg ∧ loadApiKey inp.key cfg = .ok k ∧
      loadApiSecret inp.secret inp.site cfg = .ok sec ∧
      V2.rest fuel inp
        { Url := "https://waf.sucuri.net/api?v2", ApiKey := k, ApiSecret := sec } = .ok out := by
  unfold V2.main at h
  rw [ExecResult.bind_ok_iff] at h
  obtain ⟨cfg, h1, h⟩ := h
  rw [ExecResult.bind_ok_iff] at h
  obtain ⟨k, h2, h⟩ := h
  rw [ExecResult.bind_ok_iff] at h
  obtain ⟨sec, h3, h⟩ := h
  exact ⟨cfg, k, sec, h1, h2, h3, h⟩

/-- A successful P0 run factors through the credential loaders and the
tail. -/
theorem main_ok_inv_P0 (inp : P0.Inputs) (out : P0.Final) (h : P0.main inp = .ok out) :
    ∃ cfg k sec, loadConfig inp.config = .ok cfg ∧ loadApiKey inp.key cfg = .ok k ∧
      loadApiSecret inp.secret inp.site cfg = .ok sec ∧
      P0.rest inp { Url := "https://waf.sucuri.net/api?v2", ApiKey := k, ApiSecret := sec } =
        .ok out := by
  unfold P0.main at h
  rw [ExecResult.bind_ok_iff] at h
  obtain ⟨cfg, h1, h⟩ := h
  rw [ExecResult.bind_ok_iff] at h
  obtain ⟨k, h2, h⟩ := h
  rw [ExecResult.bind_ok_iff] at h
  obtain ⟨sec, h3, h⟩ := h
  exact ⟨cfg, k, sec, h1, h2, h3, h⟩

/-- The tail of P0 submits all requests when a template is given, and
none otherwise. -/
theorem rest_submitted_P0 (inp : P0.Inputs) (su : Sucuri) (out : P0.Final)
    (h : P0.rest inp su = .ok out) :
    (inp.templatePath ≠ "" → out.submitted = out.requests) ∧
    (inp.templatePath = "" → out.submitted = []) := by
  unfold P0.rest at h
  by_cases htp : inp.templatePath ≠ ""
  · rw [if_pos htp] at h
    match hf : inp.templateFile with
    | .absent => rw [hf] at h; exact absurd h (by simp)
    | .malformed => rw [hf] at h; exact absurd h (by simp)
    | .parsed t =>
      rw [hf] at h
      dsimp only at h
      simp only [ExecResult.ok.injEq] at h
      constructor
      · intro _; rw [← h]
      · intro he; exact absurd he htp
  · rw [if_neg htp] at h
    simp only [ExecResult.ok.injEq] at h
    constructor
    · intro he; exact absurd he htp
    · intro _; rw [← h]

/-! ### Claim C4 -/

/-- Concrete run for P0: `--whitelistIP 1.2.3.4`, no `--template`. -/
def c4Inp : P0.Inputs :=
  { key := "K", secret := "S", whitelistIP := "1.2.3.4", whitelistSubnet := "",
    delete := false, templatePath := "", site := "", config := .absent,
    templateFile := .absent }

/-- The client loaded by the concrete runs (`--key K`, `--secret S`). -/
def c4Sucuri : Sucuri :=
  { Url := "https://waf.sucuri.net/api?v2", ApiKey := "K", ApiSecret := "S" }

/-- A successful P1b run factors through the `--settingOptions` check,
the credential loaders and the tail. -/
theorem main_ok_inv_P1b (fuel : Nat) (inp : P1b.Inputs) (out : P1b.Final)
    (h : P1b.main fuel inp = .ok out) :
    inp.showSettingOptions = false ∧
    ∃ cfg k sec, loadConfig inp.config = .ok cfg ∧ loadApiKey inp.key cfg = .ok k ∧
      loadApiSecret inp.secret inp.site cfg = .ok sec ∧
      P1b.rest fuel inp
        { Url := "https://waf.sucuri.net/api?v2", ApiKey := k, ApiSecret := sec } = .ok out := by
  unfold P1b.main at h
  by_cases hso : inp.showSettingOptions = true
  · rw [if_pos hso] at h
    exact absurd h (by simp)
  · rw [if_neg hso] at h
    rw [ExecResult.bind_ok_iff] at h
    obtain ⟨cfg, h1, h⟩ := h
    rw [ExecResult.bind_ok_iff] at h
    obtain ⟨k, h2, h⟩ := h
    rw [ExecResult.bind_ok_iff] at h
    obtain ⟨sec, h3, h⟩ := h
    exact ⟨by simpa using hso, cfg, k, sec, h1, h2, h3, h⟩

/-- Every normal result of P1b's tail submits exactly its request
list. -/
theorem rest_submitted_P1b (fuel : Nat) (inp : P1b.Inputs) (su : Sucuri) (out : P1b.Final)
    (h : P1b.rest fuel inp su = .ok out) : out.submitted = out.requests := by
  unfold P1b.rest at h
  rw [ExecResult.bind_ok_iff] at h
  obtain ⟨x, _, h⟩ := h
  obtain ⟨w1, b1, wp0, bp0, st0⟩ := x
  dsimp only at h
  rw [ExecResult.bind_ok_iff] at h
  obtain ⟨y, _, h⟩ := h
  obtain ⟨w3, b2, wp2, bp2, st2⟩ := y
  dsimp only at h
  simp only [ExecResult.ok.injEq] at h
  rw [← h]

/-- C4 (counterexample): in the `part_000` variant the submission loop
sits inside the `if len(*templatePath) > 0` block.  In a run with
`--whitelistIP 1.2.3.4` and no `--template` flag the accumulated request
list is non-empty, yet nothing is ever passed to `submitRequest`. -/
theorem C4_counterexample :
    P0.main c4Inp = ExecResult.ok
      { sucuri := c4Sucuri,
        requests := [SucuriRequest.whitelistIP c4Sucuri "1.2.3.4" false],
        submitted := [] } ∧
    ([SucuriRequest.whitelistIP c4Sucuri "1.2.3.4" false] : List SucuriRequest) ≠ [] :=
  ⟨by decide, by decide⟩

/-- C4 (amended): in the variants whose submission loop is at top level
(the two `main.go` programs V1 and V2, and `part_001`'s second program
P1b) every request accumulated in the requests list is passed to
`submitRequest` exactly once before exit, in every successful run,
including runs without `--template`.  In the `part_000` variant (P0)
the submission loop sits inside the `--template` branch: requests are
submitted only when `--template` is given, and a run without it submits
nothing despite a possibly non-empty request list.  In `part_001`'s
first program (P1a) the request list itself exists only inside the
`--template` branch: a run without `--template` accumulates and submits
nothing, and the `WhitelistIP` requests built from the flag are
discarded without ever entering a request list. -/
theorem C4_every_request_submitted_once :
    (∀ (inp : V1.Inputs) (out : V1.Final), V1.main inp = .ok out →
      out.submitted = out.requests ∧
      ∀ env : SucuriRequest → Outcome,
        (processRequests env out.submitted).filterMap submitProj = out.requests) ∧
    (∀ (fuel : Nat) (inp : V2.Inputs) (out : V2.Final), V2.main fuel inp = .ok out →
      out.submitted = out.requests ∧
      ∀ env : SucuriRequest → Outcome,
        (processRequests env out.submitted).filterMap submitProj = out.requests) ∧
    (∀ (fuel : Nat) (inp : P1b.Inputs) (out : P1b.Final), P1b.main fuel inp = .ok out →
      out.submitted = out.requests ∧
      ∀ env : SucuriRequest → Outcome,
        (processRequests env out.submitted).filterMap submitProj = out.requests) ∧
    (∀ (inp : P0.Inputs) (out : P0.Final), P0.main inp = .ok out →
      (inp.templatePath ≠ "" → out.submitted = out.requests) ∧
      (inp.templatePath = "" → out.submitted = [])) ∧
    (∀ (inp : P1a.Inputs) (out : P1a.Final), P1a.main inp = .ok out →
      out.submitted = out.requests ∧
      (inp.templatePath = "" → out.requests = [] ∧ out.submitted = []) ∧
      (inp.whitelistIP ≠ "" → out.discarded =
        (splitComma inp.whitelistIP).map (fun ip => out.sucuri.WhitelistIP ip inp.delete))) := by
  refine ⟨?_, ?_, ?_, ?_, ?_⟩
  · intro inp out h
    obtain ⟨cfg, k, sec, _, _, _, hrest⟩ := main_ok_inv_V1 inp out h
    have hsub := rest_submitted_V1 inp _ out hrest
    exact ⟨hsub, fun env => by rw [hsub, processRequests_filterMap]⟩
  · intro fuel inp out h
    obtain ⟨cfg, k, sec, _, _, _, hrest⟩ := main_ok_inv_V2 fuel inp out h
    have hsub := rest_submitted_V2 fuel inp _ out hrest
    exact ⟨hsub, fun env => by rw [hsub, processRequests_filterMap]⟩
  · intro fuel inp out h
    obtain ⟨_, cfg, k, sec, _, _, _, hrest⟩ := main_ok_inv_P1b fuel inp out h
    have hsub := rest_submitted_P1b fuel inp _ out hrest
    exact ⟨hsub, fun env => by rw [hsub, processRequests_filterMap]⟩
  · intro inp out h
    obtain ⟨cfg, k, sec, _, _, _, hrest⟩ := main_ok_inv_P0 inp out h
    exact rest_submitted_P0 inp _ out hrest
  · intro inp out h
    unfold P1a.main at h
    by_cases hks : inp.key = "" ∧ inp.secret = ""
    · rw [if_pos hks] at h
      exact absurd h (by simp)
    · rw [if_neg hks] at h
      dsimp only at h
      by_cases htp : inp.templatePath ≠ ""
      · rw [if_pos htp] at h
        match hf : inp.templateFile with
        | .absent => rw [hf] at h; exact absurd h (by simp)
        | .malformed => rw [hf] at h; exact absurd h (by simp)
        | .parsed t =>
          rw [hf] at h
          dsimp only at h
          simp only [ExecResult.ok.injEq] at h
          refine ⟨by rw [← h], fun he => absurd he htp, fun hw => ?_⟩
          rw [← h]
          dsimp only
          rw [if_pos hw]
      · rw [if_neg htp] at h
        simp only [ExecResult.ok.injEq] at h
        refine ⟨by rw [← h], fun _ => ⟨by rw [← h], by rw [← h]⟩, fun hw => ?_⟩
        rw [← h]
        dsimp only
        rw [if_pos hw]

/-- Concrete run for V1: `--whitelistIP 1.2.3.4`, no `--template`. -/
def c4V1Inp : V1.Inputs :=
  { key := "K", secret := "S", whitelistIP := "1.2.3.4", blacklistIP := "",
    whitelistSubnet := "", whitelistPath := "", whitelistPathPattern := "",
    delete := false, templatePath := "", site := "", config := .absent,
    templateFile := .absent }

/-- The final state of the concrete V1 run. -/
def c4V1Out : V1.Final :=
  { sucuri := c4Sucuri, wIPs := ["1.2.3.4"], bIPs := [], wPaths := [],
    requests := [SucuriRequest.whitelistIP c4Sucuri "1.2.3.4" false],
    submitted := [SucuriRequest.whitelistIP c4Sucuri "1.2.3.4" false] }

/-- Concrete run for P1b: `--whitelistIP 1.2.3.4`, no `--template`. -/
def c4P1bInp : P1b.Inputs :=
  { key := "K", secret := "S", whitelistIP := "1.2.3.4", blacklistIP := "",
    whitelistSubnet := "", blacklistSubnet := "", whitelistPath := "",
    blacklistPath := "", pathPattern := "", delete := false,
    showSettingOptions := false, setting := "", settingVal := "",
    templatePath := "", site := "", config := .absent, templateFile := .absent }

/-- The final state of the concrete P1b run. -/
def c4P1bOut : P1b.Final :=
  { sucuri := c4Sucuri, wIPs := ["1.2.3.4"], bIPs := [], wPaths := [], bPaths := [],
    settings := [],
    requests := [SucuriRequest.whitelistIP c4Sucuri "1.2.3.4" false],
    submitted := [SucuriRequest.whitelistIP c4Sucuri "1.2.3.4" false] }

/-- Concrete run for P1a: `--whitelistIP 1.2.3.4`, no `--template`. -/
def c4P1aInp : P1a.Inputs :=
  { key := "K", secret := "S", whitelistIP := "1.2.3.4", whitelistSubnet := "",
    delete := false, templatePath := "", templateFile := .absent }

/-- The final state of the concrete P1a run: the flag-built request is
discarded, nothing is accumulated or submitted. -/
def c4P1aOut : P1a.Final :=
  { sucuri := c4Sucuri,
    discarded := [SucuriRequest.whitelistIP c4Sucuri "1.2.3.4" false],
    requests := [], submitted := [] }

/-- C4 (witness): the amended theorem applied to concrete template-less
runs of V1, P1b, P0 and P1a. -/
theorem C4_witness :
    c4V1Out.submitted = c4V1Out.requests ∧
    c4P1bOut.submitted = c4P1bOut.requests ∧
    ({ sucuri := c4Sucuri,
       requests := [SucuriRequest.whitelistIP c4Sucuri "1.2.3.4" false],
       submitted := [] } : P0.Final).submitted = [] ∧
    (c4P1aOut.requests = [] ∧ c4P1aOut.submitted = []) :=
  ⟨(C4_every_request_submitted_once.1 c4V1Inp c4V1Out (by decide)).1,
   (C4_every_request_submitted_once.2.2.1 0 c4P1bInp c4P1bOut (by decide)).1,
   (C4_every_request_submitted_once.2.2.2.1 c4Inp _ (by decide)).2 rfl,
   (C4_every_request_submitted_once.2.2.2.2 c4P1aInp c4P1aOut (by decide)).2.1 rfl⟩

/-! ### Claim C8 -/

/-- C8: in every run of V2 that reaches request generation and
submission (i.e. returns normally rather than exiting early), the
loaded client has a non-empty ApiKey and a non-empty ApiSecret, exactly
one of `--secret` and `--site` was provided, a provided `--site`
resolves to its entry in the config file, and the key came from `--key`
when given and from the config file otherwise. -/
theorem C8_credential_invariant :
    ∀ (fuel : Nat) (inp : V2.Inputs) (out : V2.Final),
      V2.main fuel inp = .ok out →
      out.sucuri.ApiKey ≠ "" ∧ out.sucuri.ApiSecret ≠ "" ∧
      ((inp.secret ≠ "" ∧ inp.site = "") ∨ (inp.secret = "" ∧ inp.site ≠ "")) ∧
      (inp.key ≠ "" → out.sucuri.ApiKey = inp.key) ∧
      (∀ c : ConfigFile, inp.key = "" → inp.config = .parsed c →
        out.sucuri.ApiKey = c.apiKey) ∧
      (∀ c : ConfigFile, inp.site ≠ "" → inp.config = .parsed c →
        mapIndex c.sites inp.site = out.sucuri.ApiSecret) := by
  intro fuel inp out h
  obtain ⟨cfg, k, sec, hc, hk, hs, hrest⟩ := main_ok_inv_V2 fuel inp out h
  have hsuc := rest_sucuri_V2 fuel inp _ out hrest
  obtain ⟨hkne, hkflag, hkcfg⟩ := loadApiKey_ok inp.key cfg k hk
  obtain ⟨hsne, hsdisj⟩ := loadApiSecret_ok inp.secret inp.site cfg sec hs
  have hkey : out.sucuri.ApiKey = k := by rw [hsuc]
  have hsec2 : out.sucuri.ApiSecret = sec := by rw [hsuc]
  refine ⟨by rw [hkey]; exact hkne, by rw [hsec2]; exact hsne, ?_, ?_, ?_, ?_⟩
  · rcases hsdisj with ⟨h1, h2, _⟩ | ⟨h1, h2, _⟩
    · exact Or.inl ⟨h1, h2⟩
    · exact Or.inr ⟨h1, h2⟩
  · intro hf
    rw [hkey]
    exact hkflag hf
  · intro c he hcfg
    rw [hcfg] at hc
    simp only [loadConfig, ExecResult.ok.injEq] at hc
    rw [hkey, hkcfg he, ← hc]
  · intro c hsite hcfg
    rw [hcfg] at hc
    simp only [loadConfig, ExecResult.ok.injEq] at hc
    rcases hsdisj with ⟨_, h2, _⟩ | ⟨_, _, h3⟩
    · exact absurd h2 hsite
    · rw [hsec2, hc]
      exact h3

/-- Concrete V2 run for the C8 witness: key from config file, secret
resolved through `--site`. -/
def c8Inp : V2.Inputs :=
  { key := "", secret := "", whitelistIP := "", blacklistIP := "",
    whitelistSubnet := "", blacklistSubnet := "", whitelistPath := "",
    whitelistPathPattern := "", delete := false, templatePath := "", site := "prod",
    config := .parsed { apiKey := "CK", sites := [("prod", "SEC")] },
    templateFile := .absent }

/-- The final state of the concrete C8 run. -/
def c8Out : V2.Final :=
  { sucuri := { Url := "https://waf.sucuri.net/api?v2", ApiKey := "CK", ApiSecret := "SEC" },
    wIPs := [], bIPs := [], wPaths := [], requests := [], submitted := [] }

/-- C8 (witness): the invariant holds of the concrete run. -/
theorem C8_witness :
    c8Out.sucuri.ApiKey ≠ "" ∧ c8Out.sucuri.ApiSecret ≠ "" ∧
    ((c8Inp.secret ≠ "" ∧ c8Inp.site = "") ∨ (c8Inp.secret = "" ∧ c8Inp.site ≠ "")) ∧
    (c8Inp.key ≠ "" → c8Out.sucuri.ApiKey = c8Inp.key) ∧
    (∀ c : ConfigFile, c8Inp.key = "" → c8Inp.config = .parsed c →
      c8Out.sucuri.ApiKey = c.apiKey) ∧
    (∀ c : ConfigFile, c8Inp.site ≠ "" → c8Inp.config = .parsed c →
      mapIndex c.sites c8Inp.site = c8Out.sucuri.ApiSecret) :=
  C8_credential_invariant 0 c8Inp c8Out (by decide)

/-! ### Claim C3 -/

/-- Concrete V2 run in which both `--whitelistIP 1.1.1.1` and a template
with a non-empty `whitelistIPs` list are given. -/
def c3Inp : V2.Inputs :=
  { key := "K", secret := "S", whitelistIP := "1.1.1.1", blacklistIP := "",
    whitelistSubnet := "", blacklistSubnet := "", whitelistPath := "",
    whitelistPathPattern := "", delete := false, templatePath := "t.json", site := "",
    config := .absent,
    templateFile := .parsed
      { whitelistIPs := ["2.2.2.2"], blacklistIPs := [], whitelistSubnets := [],
        blacklistSubnets := [], whitelistPaths := [], settings := [] } }

/-- C3 (counterexample): the claim says the `--whitelistIP` flag beats
the template file.  In the run `c3Inp` the template's
`wIPs = template.WhitelistIP` assignment replaces the flag's list: the
only IP whitelisted is the template's `2.2.2.2`, and no request for the
flag's `1.1.1.1` is built. -/
theorem C3_counterexample :
    V2.main 0 c3Inp = ExecResult.ok
      { sucuri := c4Sucuri, wIPs := ["2.2.2.2"], bIPs := [], wPaths := [],
        requests := [SucuriRequest.whitelistIP c4Sucuri "2.2.2.2" false],
        submitted := [SucuriRequest.whitelistIP c4Sucuri "2.2.2.2" false] } ∧
    SucuriRequest.whitelistIP c4Sucuri "1.1.1.1" false ∉
      [SucuriRequest.whitelistIP c4Sucuri "2.2.2.2" false] :=
  ⟨by decide, by decide⟩

/-- C3 (amended): the precedence the code implements.  The explicit
`--key` flag beats the config file's `apiKey`, as claimed; but for the
whitelist IP list the template file beats the `--whitelistIP` flag: in
every successful run whose template has a non-empty `whitelistIPs` list
(and no whitelist subnets appended after it), the whitelisted IPs are
exactly the template's list, whatever the flag said. -/
theorem C3_flag_template_precedence :
    ∀ (fuel : Nat) (inp : V2.Inputs) (out : V2.Final),
      V2.main fuel inp = .ok out →
      (inp.key ≠ "" → out.sucuri.ApiKey = inp.key) ∧
      (∀ c : ConfigFile, inp.key = "" → inp.config = .parsed c →
        out.sucuri.ApiKey = c.apiKey) ∧
      (∀ t : V2.Template, inp.templatePath ≠ "" → inp.templateFile = .parsed t →
        t.whitelistIPs ≠ [] → t.whitelistSubnets = [] → out.wIPs = t.whitelistIPs) := by
  intro fuel inp out h
  obtain ⟨cfg, k, sec, hc, hk, hs, hrest⟩ := main_ok_inv_V2 fuel inp out h
  have hsuc := rest_sucuri_V2 fuel inp _ out hrest
  obtain ⟨hkne, hkflag, hkcfg⟩ := loadApiKey_ok inp.key cfg k hk
  have hkey : out.sucuri.ApiKey = k := by rw [hsuc]
  refine ⟨?_, ?_, ?_⟩
  · intro hf
    rw [hkey]
    exact hkflag hf
  · intro c he hcfg
    rw [hcfg] at hc
    simp only [loadConfig, ExecResult.ok.injEq] at hc
    rw [hkey, hkcfg he, ← hc]
  · intro t htp hft hwne hsub
    unfold V2.rest at hrest
    rw [ExecResult.bind_ok_iff] at hrest
    obtain ⟨xx, hx, hrest⟩ := hrest
    obtain ⟨wl, bl, wp⟩ := xx
    dsimp only at hrest
    rw [ExecResult.bind_ok_iff] at hrest
    obtain ⟨yy, hy, hrest⟩ := hrest
    obtain ⟨r0, w3, b2, p2⟩ := yy
    dsimp only at hrest
    simp only [ExecResult.ok.injEq] at hrest
    have hout : out.wIPs = w3 := by rw [← hrest]
    unfold V2.applyTemplate at hy
    rw [if_pos htp, hft] at hy
    dsimp only at hy
    rw [if_pos hwne, hsub] at hy
    simp only [V2.expandAppend] at hy
    rw [ExecResult.bind_ok_iff] at hy
    obtain ⟨w3x, hw3, hy⟩ := hy
    simp only [ExecResult.ok.injEq] at hw3
    rw [ExecResult.bind_ok_iff] at hy
    obtain ⟨b2x, hb2, hy⟩ := hy
    simp only [ExecResult.ok.injEq, Prod.mk.injEq] at hy
    rw [hout, ← hy.2.1, ← hw3]

/-- Concrete V2 run for the C3 witness: `--key K2` together with a
parsed config file, and a template overriding `--whitelistIP`. -/
def c3wInp : V2.Inputs :=
  { key := "K2", secret := "S", whitelistIP := "9.9.9.9", blacklistIP := "",
    whitelistSubnet := "", blacklistSubnet := "", whitelistPath := "",
    whitelistPathPattern := "", delete := false, templatePath := "t.json", site := "",
    config := .parsed { apiKey := "CK", sites := [] },
    templateFile := .parsed
      { whitelistIPs := ["3.3.3.3"], blacklistIPs := [], whitelistSubnets := [],
        blacklistSubnets := [], whitelistPaths := [], settings := [] } }

/-- The final state of the concrete C3 witness run. -/
def c3wOut : V2.Final :=
  { sucuri := { Url := "https://waf.sucuri.net/api?v2", ApiKey := "K2", ApiSecret := "S" },
    wIPs := ["3.3.3.3"], bIPs := [], wPaths := [],
    requests := [SucuriRequest.whitelistIP
      { Url := "https://waf.sucuri.net/api?v2", ApiKey := "K2", ApiSecret := "S" }
      "3.3.3.3" false],
    submitted := [SucuriRequest.whitelistIP
      { Url := "https://waf.sucuri.net/api?v2", ApiKey := "K2", ApiSecret := "S" }
      "3.3.3.3" false] }

/-- C3 (witness): the amended precedence holds of the concrete run. -/
theorem C3_witness :
    (c3wInp.key ≠ "" → c3wOut.sucuri.ApiKey = c3wInp.key) ∧
    (∀ c : ConfigFile, c3wInp.key = "" → c3wInp.config = .parsed c →
      c3wOut.sucuri.ApiKey = c.apiKey) ∧
    (∀ t : V2.Template, c3wInp.templatePath ≠ "" → c3wInp.templateFile = .parsed t →
      t.whitelistIPs ≠ [] → t.whitelistSubnets = [] → c3wOut.wIPs = t.whitelistIPs) :=
  C3_flag_template_precedence 0 c3wInp c3wOut (by decide)

/-! ### Claim C9 -/

/-- Inverting V2's flag-parsing phase when `--blacklistSubnet` is given:
the blacklist list is rebuilt from the whitelist list, as the code's
`bIPs = append(wIPs, ips...)` does. -/
theorem locals_ok_inv_V2 (fuel : Nat) (inp : V2.Inputs) (wl bl : List String)
    (wp : List (String × String)) (hb : inp.blacklistSubnet ≠ "")
    (h : V2.locals fuel inp = .ok (wl, bl, wp)) :
    ∃ ips, getUsableIPs fuel inp.blacklistSubnet = .ok ips ∧ bl = wl ++ ips := by
  unfold V2.locals at h
  dsimp only at h
  rw [ExecResult.bind_ok_iff] at h
  obtain ⟨w1, hw1, h⟩ := h
  rw [if_pos hb] at h
  rw [ExecResult.bind_ok_iff] at h
  obtain ⟨b1, hb1, h⟩ := h
  rw [ExecResult.bind_ok_iff] at hb1
  obtain ⟨ips, hips, hq⟩ := hb1
  simp only [ExecResult.ok.injEq] at hq
  simp only [ExecResult.ok.injEq, Prod.mk.injEq] at h
  exact ⟨ips, hips, by rw [← h.2.1, ← hq, h.1]⟩

/-- The template block only appends to the blacklist list it is given
(the template has no blacklist-IP override). -/
theorem applyTemplate_bIPs_V2 (fuel : Nat) (inp : V2.Inputs) (su : Sucuri)
    (wIPs bIPs : List String) (wPaths : List (String × String))
    (r0 : List SucuriRequest) (w3 b2 : List String) (p2 : List (String × String))
    (h : V2.applyTemplate fuel inp su wIPs bIPs wPaths = .ok (r0, w3, b2, p2)) :
    ∃ ext, b2 = bIPs ++ ext := by
  unfold V2.applyTemplate at h
  by_cases htp : inp.templatePath ≠ ""
  · rw [if_pos htp] at h
    match hf : inp.templateFile with
    | .absent => rw [hf] at h; exact absurd h (by simp)
    | .malformed => rw [hf] at h; exact absurd h (by simp)
    | .parsed t =>
      rw [hf] at h
      dsimp only at h
      rw [ExecResult.bind_ok_iff] at h
      obtain ⟨w3x, hw3, h⟩ := h
      rw [ExecResult.bind_ok_iff] at h
      obtain ⟨b2x, hb2, h⟩ := h
      simp only [ExecResult.ok.injEq, Prod.mk.injEq] at h
      obtain ⟨ext, hext⟩ := expandAppend_extends fuel t.blacklistSubnets bIPs b2x hb2
      exact ⟨ext, by rw [← h.2.2.1, hext]⟩
  · rw [if_neg htp] at h
    simp only [ExecResult.ok.injEq, Prod.mk.injEq] at h
    exact ⟨[], by rw [← h.2.2.1]; simp⟩

/-- When `--blacklistSubnet` is given, the flag-parsing phase never
consults `--blacklistIP`: its split list is overwritten. -/
theorem locals_blacklistIP_indep_V2 (fuel : Nat) (inp : V2.Inputs) (x : String)
    (hb : inp.blacklistSubnet ≠ "") :
    V2.locals fuel { inp with blacklistIP := x } = V2.locals fuel inp := by
  unfold V2.locals
  dsimp only
  simp only [eq_true hb, if_true]

/-- Lifting blacklist-flag independence through V2's tail. -/
theorem rest_blacklistIP_indep_V2 (fuel : Nat) (inp : V2.Inputs) (x : String)
    (hb : inp.blacklistSubnet ≠ "") (su : Sucuri) :
    V2.rest fuel { inp with blacklistIP := x } su = V2.rest fuel inp su := by
  unfold V2.rest
  rw [locals_blacklistIP_indep_V2 fuel inp x hb]
  exact rfl

/-- Lifting blacklist-flag independence through V2's `main`. -/
theorem main_blacklistIP_indep_V2 (fuel : Nat) (inp : V2.Inputs) (x : String)
    (hb : inp.blacklistSubnet ≠ "") :
    V2.main fuel { inp with blacklistIP := x } = V2.main fuel inp := by
  unfold V2.main
  simp only [rest_blacklistIP_indep_V2 fuel inp x hb]

/-- C9: when `--blacklistSubnet` is used, the blacklist IP list is
rebuilt as `bIPs = append(wIPs, ips...)`: the whitelist list (the
`--whitelistIP` components together with the `--whitelistSubnet`
expansion) plus the subnet's hosts.  Every IP of that whitelist list is
then also blacklisted — it ends up in the final blacklist and a
`BlacklistIP` request for it is among the generated requests — and the
IPs given via `--blacklistIP` are dropped: the whole run is unchanged
under any change of the `--blacklistIP` flag. -/
theorem C9_blacklistSubnet_rebuild :
    ∀ (fuel : Nat) (inp : V2.Inputs), inp.blacklistSubnet ≠ "" →
      (∀ (out : V2.Final) (wl bl : List String) (wp : List (String × String)),
        V2.main fuel inp = .ok out → V2.locals fuel inp = .ok (wl, bl, wp) →
        (∃ ips, getUsableIPs fuel inp.blacklistSubnet = .ok ips ∧ bl = wl ++ ips) ∧
        (∀ ip, ip ∈ wl →
          ip ∈ out.bIPs ∧ out.sucuri.BlacklistIP ip inp.delete ∈ out.requests)) ∧
      (∀ x y : String,
        V2.main fuel { inp with blacklistIP := x } =
          V2.main fuel { inp with blacklistIP := y }) := by
  intro fuel inp hb
  constructor
  · intro out wl bl wp hmain hloc
    refine ⟨locals_ok_inv_V2 fuel inp wl bl wp hb hloc, ?_⟩
    intro ip hip
    obtain ⟨ips, hips, hbl⟩ := locals_ok_inv_V2 fuel inp wl bl wp hb hloc
    obtain ⟨cfg, k, sec, hc, hk, hs, hrest⟩ := main_ok_inv_V2 fuel inp out hmain
    unfold V2.rest at hrest
    rw [ExecResult.bind_ok_iff] at hrest
    obtain ⟨xx, hx, hrest⟩ := hrest
    rw [hloc] at hx
    simp only [ExecResult.ok.injEq] at hx
    subst hx
    dsimp only at hrest
    rw [ExecResult.bind_ok_iff] at hrest
    obtain ⟨yy, hy, hrest⟩ := hrest
    obtain ⟨r0, w3, b2, p2⟩ := yy
    dsimp only at hrest
    simp only [ExecResult.ok.injEq] at hrest
    have houtb : out.bIPs = b2 := by rw [← hrest]
    have houtr : out.requests =
        V2.genRequests { Url := "https://waf.sucuri.net/api?v2", ApiKey := k, ApiSecret := sec }
          inp.delete r0 w3 b2 p2 := by rw [← hrest]
    have houts : out.sucuri =
        { Url := "https://waf.sucuri.net/api?v2", ApiKey := k, ApiSecret := sec } := by
      rw [← hrest]
    obtain ⟨ext, hext⟩ := applyTemplate_bIPs_V2 fuel inp _ wl bl wp r0 w3 b2 p2 hy
    have hmem : ip ∈ b2 := by
      rw [hext, hbl]
      exact List.mem_append_left ext (List.mem_append_left ips hip)
    have hne : b2 ≠ [] := List.ne_nil_of_mem hmem
    refine ⟨by rw [houtb]; exact hmem, ?_⟩
    rw [houtr, houts]
    unfold V2.genRequests
    rw [if_pos hne, blacklistIPs_map_V2]
    simp only [List.mem_append]
    exact Or.inl (Or.inr (List.mem_map_of_mem _ hmem))
  · intro x y
    rw [main_blacklistIP_indep_V2 fuel inp x hb, main_blacklistIP_indep_V2 fuel inp y hb]

/-- Concrete V2 run for the C9 witness: `--whitelistIP 7.7.7.7`,
`--blacklistIP 8.8.8.8`, `--blacklistSubnet 10.0.0.0/30`. -/
def c9Inp : V2.Inputs :=
  { key := "K", secret := "S", whitelistIP := "7.7.7.7", blacklistIP := "8.8.8.8",
    whitelistSubnet := "", blacklistSubnet := "10.0.0.0/30", whitelistPath := "",
    whitelistPathPattern := "", delete := false, templatePath := "", site := "",
    config := .absent, templateFile := .absent }

/-- The final state of the concrete C9 run: `8.8.8.8` is gone from the
blacklist, which instead holds the whitelist IP and the subnet hosts. -/
def c9Out : V2.Final :=
  { sucuri := c4Sucuri, wIPs := ["7.7.7.7"],
    bIPs := ["7.7.7.7", "10.0.0.1", "10.0.0.2"], wPaths := [],
    requests :=
      [SucuriRequest.whitelistIP c4Sucuri "7.7.7.7" false,
       SucuriRequest.blacklistIP c4Sucuri "7.7.7.7" false,
       SucuriRequest.blacklistIP c4Sucuri "10.0.0.1" false,
       SucuriRequest.blacklistIP c4Sucuri "10.0.0.2" false],
    submitted :=
      [SucuriRequest.whitelistIP c4Sucuri "7.7.7.7" false,
       SucuriRequest.blacklistIP c4Sucuri "7.7.7.7" false,
       SucuriRequest.blacklistIP c4Sucuri "10.0.0.1" false,
       SucuriRequest.blacklistIP c4Sucuri "10.0.0.2" false] }

/-- C9 (witness): the rebuild behaviour on the concrete run. -/
theorem C9_witness :
    ((∃ ips, getUsableIPs 8 c9Inp.blacklistSubnet = .ok ips ∧
        (["7.7.7.7", "10.0.0.1", "10.0.0.2"] : List String) = ["7.7.7.7"] ++ ips) ∧
      (∀ ip, ip ∈ (["7.7.7.7"] : List String) →
        ip ∈ c9Out.bIPs ∧ c9Out.sucuri.BlacklistIP ip c9Inp.delete ∈ c9Out.requests)) ∧
    V2.main 8 { c9Inp with blacklistIP := "1.2.3.4" } =
      V2.main 8 { c9Inp with blacklistIP := "" } :=
  ⟨(C9_blacklistSubnet_rebuild 8 c9Inp (by decide)).1 c9Out ["7.7.7.7"]
      ["7.7.7.7", "10.0.0.1", "10.0.0.2"] [] (by decide) (by decide),
   (C9_blacklistSubnet_rebuild 8 c9Inp (by decide)).2 "1.2.3.4" ""⟩

/-! ### Claim C7 -/

/-- C7: whitelisting and blacklisting map inputs one-to-one onto
requests.  `whitelistIPs(IPs, d, s)` has length `len(IPs)` and its i-th
element is `s.WhitelistIP(IPs[i], d)`, and symmetrically for
`blacklistIPs`; and in every run of V1 (the `main` the claim cites)
without a template, the request list is exactly one `WhitelistIP`
request per comma-separated component of `--whitelistIP` and one
`BlacklistIP` request per component of `--blacklistIP`, in order, each
carrying the run's delete flag, followed by the path request if any. -/
theorem C7_one_request_per_component :
    (∀ (IPs : List String) (del : Bool) (s : Sucuri),
      (V1.whitelistIPs IPs del s).length = IPs.length ∧
      (∀ i : Nat, (V1.whitelistIPs IPs del s)[i]? =
        (IPs[i]?).map (fun ip => s.WhitelistIP ip del)) ∧
      (V1.blacklistIPs IPs del s).length = IPs.length ∧
      (∀ i : Nat, (V1.blacklistIPs IPs del s)[i]? =
        (IPs[i]?).map (fun ip => s.BlacklistIP ip del))) ∧
    (∀ (inp : V1.Inputs) (out : V1.Final), inp.templatePath = "" →
      V1.main inp = .ok out →
      out.requests =
        (if inp.whitelistIP ≠ "" then
          (splitComma inp.whitelistIP).map (fun ip => out.sucuri.WhitelistIP ip inp.delete)
        else []) ++
        (if inp.blacklistIP ≠ "" then
          (splitComma inp.blacklistIP).map (fun ip => out.sucuri.BlacklistIP ip inp.delete)
        else []) ++
        (if inp.whitelistPath ≠ "" ∧ inp.whitelistPathPattern ≠ "" then
          [out.sucuri.WhitelistPath inp.whitelistPath inp.whitelistPathPattern]
        else [])) := by
  constructor
  · intro IPs del s
    refine ⟨?_, ?_, ?_, ?_⟩
    · rw [whitelistIPs_map_V1]; simp
    · intro i; rw [whitelistIPs_map_V1]; simp
    · rw [blacklistIPs_map_V1]; simp
    · intro i; rw [blacklistIPs_map_V1]; simp
  · intro inp out htp hmain
    obtain ⟨cfg, k, sec, _, _, _, hrest⟩ := main_ok_inv_V1 inp out hmain
    unfold V1.rest at hrest
    dsimp only at hrest
    unfold V1.applyTemplate at hrest
    rw [if_neg (by simp [htp])] at hrest
    simp only [ExecResult.bind] at hrest
    simp only [ExecResult.ok.injEq] at hrest
    rw [← hrest]
    dsimp only
    by_cases hw : inp.whitelistIP = "" <;>
      by_cases hbk : inp.blacklistIP = "" <;>
        by_cases hp : inp.whitelistPath ≠ "" ∧ inp.whitelistPathPattern ≠ "" <;>
          simp [hw, hbk, hp, splitComma_ne_nil, whitelistIPs_map_V1,
            blacklistIPs_map_V1]

/-- C7 (witness): the indexed characterization evaluated on a two-IP
list, and the template-less V1 run `c4V1Inp`. -/
theorem C7_witness :
    (V1.whitelistIPs ["1.1.1.1", "2.2.2.2"] true c4Sucuri).length = 2 ∧
    c4V1Out.requests =
      (if c4V1Inp.whitelistIP ≠ "" then
        (splitComma c4V1Inp.whitelistIP).map
          (fun ip => c4V1Out.sucuri.WhitelistIP ip c4V1Inp.delete)
      else []) ++
      (if c4V1Inp.blacklistIP ≠ "" then
        (splitComma c4V1Inp.blacklistIP).map
          (fun ip => c4V1Out.sucuri.BlacklistIP ip c4V1Inp.delete)
      else []) ++
      (if c4V1Inp.whitelistPath ≠ "" ∧ c4V1Inp.whitelistPathPattern ≠ "" then
        [c4V1Out.sucuri.WhitelistPath c4V1Inp.whitelistPath c4V1Inp.whitelistPathPattern]
      else []) :=
  ⟨(C7_one_request_per_component.1 ["1.1.1.1", "2.2.2.2"] true c4Sucuri).1,
   C7_one_request_per_component.2 c4V1Inp c4V1Out rfl (by decide)⟩

end SucuriAPI
